import Mathlib

/-!
# gstplaysinkconvertbin.c : a shallow embedding

The container ("convert bin") of `gst/playback/gstplaysinkconvertbin.c` is embedded as a
record of its C fields together with the part of the GStreamer world its functions read or
write through the framework API: the targets of the two ghost pads, the blocked flag of the
inbound internal proxy pad, the children of the bin, and a chronological log with one entry
per framework call that has an effect outside the record.

The functions of the C file are state transformers under their C names; `finalize` and
`class_init`, which only manage the object, have no counterpart.
-/

namespace PlaySinkConvertBin

/-! ## Caps -/

/-- A `GstStructure`; the code only ever reads its name. -/
structure GstStructure where
  name : String
deriving DecidableEq, Repr

/-- A `GstCaps`: the ANY flag and the array of structures. `gst_caps_new_any` has the flag
set and no structure. -/
structure GstCaps where
  any : Bool
  structs : List GstStructure
deriving DecidableEq, Repr

/-- `gst_caps_new_any ()`. -/
def gst_caps_new_any : GstCaps := { any := true, structs := [] }

/-- `g_str_has_prefix (str, prefix)`; a NULL `str` fails glib's argument check and the
call answers FALSE. -/
def g_str_has_prefix (str : Option String) (pfx : String) : Bool :=
  match str with
  | none => false
  | some s => pfx.data.isPrefixOf s.data

/-- `gst_caps_get_size`. -/
def gst_caps_get_size (caps : GstCaps) : Nat := caps.structs.length

/-- `gst_caps_get_structure (caps, i)`; NULL when the index is out of range. -/
def gst_caps_get_structure (caps : GstCaps) (i : Nat) : Option GstStructure := caps.structs[i]?

/-- `gst_structure_get_name`; NULL for a NULL structure. -/
def gst_structure_get_name (s : Option GstStructure) : Option String := s.map (fun x => x.name)

/-- The loop of `is_raw_caps` (lines 55-61) over the structures still to visit: the
first one whose name has neither prefix makes the function return FALSE, and when no
structure is left the function returns TRUE (line 63). -/
def is_raw_caps_loop : List GstStructure → Bool
  | [] => true
  | s :: rest =>
    let audio_raw := g_str_has_prefix (some s.name) "audio/x-raw"
    let video_raw := g_str_has_prefix (some s.name) "video/x-raw"
    if !audio_raw && !video_raw then false
    else is_raw_caps_loop rest

/-- `is_raw_caps (caps)` (lines 47-64). It has no access to the container. -/
def is_raw_caps (caps : GstCaps) : Bool := is_raw_caps_loop caps.structs

/-! ## Elements, pads, segments, events -/

/-- An element: a handle (`id`, unique per creation), the factory that made it and the
name it was given. -/
structure Element where
  id : Nat
  factory : String
  name : String
deriving DecidableEq, Repr

/-- Pads the code talks about. -/
inductive Pad where
  /-- `gst_element_get_static_pad (el, name)` of an interior element. -/
  | static (el : Element) (name : String)
  /-- `self->sinkpad`, the inbound ghost pad. -/
  | sinkpad
  /-- `self->srcpad`, the outbound ghost pad. -/
  | srcpad
  /-- `self->sink_proxypad`, the internal proxy pad of `self->sinkpad`. -/
  | sink_proxypad
  /-- Any other pad (pads of upstream and downstream elements, foreign pads). -/
  | other (n : Nat)
deriving DecidableEq, Repr

/-- `GstFormat`. -/
inductive GstFormat where
  | undefined | default | bytes | time | buffers | percent
deriving DecidableEq, Repr

/-- A `gdouble`; the code only copies rates, so a rate is carried as its bit pattern. -/
abbrev gdouble := Nat

/-- The bit pattern of `1.0`. -/
def gdouble_one : gdouble := 0x3FF0000000000000

/-- `GstSegment` (GStreamer 0.10). -/
structure GstSegment where
  rate : gdouble
  abs_rate : gdouble
  applied_rate : gdouble
  format : GstFormat
  flags : Nat
  start : Int
  stop : Int
  time : Int
  accum : Int
  last_stop : Int
  duration : Int
deriving DecidableEq, Repr

/-- Modelled from the spec: `gst_segment_init (segment, format)` of the framework, which
resets the timeline state to the empty segment of the given format. -/
def gst_segment_init (format : GstFormat) : GstSegment :=
  { rate := gdouble_one, abs_rate := gdouble_one, applied_rate := gdouble_one,
    format := format, flags := 0, start := 0, stop := -1, time := 0, accum := 0,
    last_stop := 0, duration := -1 }

/-- Events the code creates or inspects. -/
inductive GstEvent where
  /-- A `GST_EVENT_NEWSEGMENT`, as `gst_event_new_new_segment_full` builds it. -/
  | new_segment_full (update : Bool) (rate : gdouble) (applied_rate : gdouble)
      (format : GstFormat) (start : Int) (stop : Int) (position : Int)
  /-- A `GST_EVENT_FLUSH_STOP`. -/
  | flush_stop
  /-- An event of any other type. -/
  | other (type : Nat)
deriving DecidableEq, Repr

/-- `GstState`. -/
inductive GstState where
  | void_pending | null | ready | paused | playing
deriving DecidableEq, Repr

/-- `GstStateChange`. -/
inductive GstStateChange where
  | null_to_ready | ready_to_paused | paused_to_playing
  | playing_to_paused | paused_to_ready | ready_to_null
deriving DecidableEq, Repr

/-- `GstStateChangeReturn`. -/
inductive GstStateChangeReturn where
  | failure | success | async | no_preroll
deriving DecidableEq, Repr

/-! ## The framework calls that leave a trace -/

/-- One entry per framework call with an effect outside the C struct, in call order. -/
inductive Action where
  /-- `GST_PLAY_SINK_CONVERT_BIN_LOCK`. -/
  | lock
  /-- `GST_PLAY_SINK_CONVERT_BIN_UNLOCK`. -/
  | unlock
  /-- `gst_element_post_message` of a missing-element message for a factory. -/
  | post_missing_element (factory : String)
  /-- `GST_ELEMENT_WARNING (self, CORE, MISSING_PLUGIN, ...)`; the flag is `self->audio`. -/
  | element_warning (factory : String) (audio : Bool)
  /-- `GST_ELEMENT_ERROR (self, CORE, PAD, ...)`. -/
  | element_error
  /-- `gst_bin_add (self, el)`. -/
  | bin_add (el : Element)
  /-- `gst_bin_remove (self, el)`. -/
  | bin_remove (el : Element)
  /-- `gst_element_set_state (el, state)`. -/
  | set_state (el : Element) (state : GstState)
  /-- `gst_element_sync_state_with_parent (el)`. -/
  | sync_state_with_parent (el : Element)
  /-- `gst_pad_send_event (pad, event)`. -/
  | send_event (pad : Pad) (event : GstEvent)
  /-- `gst_ghost_pad_set_target (ghost, target)`. -/
  | set_target (ghost : Pad) (target : Option Pad)
  /-- `gst_pad_set_blocked_async_full (pad, blocked, pad_blocked_cb, ...)`. -/
  | set_blocked_async (pad : Pad) (blocked : Bool)
  /-- `gst_ghost_pad_setcaps_default (pad, caps)`. -/
  | setcaps_default (pad : Pad) (caps : GstCaps)
  /-- `GST_ELEMENT_CLASS (parent_class)->change_state (element, transition)`. -/
  | parent_change_state (transition : GstStateChange)
  /-- `gst_proxy_pad_event_default (pad, event)`. -/
  | event_default (pad : Pad) (event : GstEvent)
  /-- `GST_ERROR_OBJECT (pad, "Not one of our pads")`. -/
  | debug_error_not_our_pad (pad : Pad)
  /-- `GST_WARNING_OBJECT (self, "Could not traverse bin")`. -/
  | debug_warning_no_traverse
deriving DecidableEq, Repr

/-! ## The container -/

/-- `GstPlaySinkConvertBin` and the framework state attached to it. -/
structure GstPlaySinkConvertBin where
  /-- `self->audio`: media kind, set by the subclass. -/
  audio : Bool
  /-- `self->raw`. -/
  raw : Bool
  /-- `self->sink_proxypad_blocked`. -/
  sink_proxypad_blocked : Bool
  /-- `self->conversion_elements`, a `GList` in order. -/
  conversion_elements : List Element
  /-- `self->identity`. -/
  identity : Option Element
  /-- `self->segment`. -/
  segment : GstSegment
  /-- Target of the ghost pad `self->sinkpad`. -/
  sink_target : Option Pad
  /-- Target of the ghost pad `self->srcpad`. -/
  src_target : Option Pad
  /-- What `gst_pad_is_blocked (self->sink_proxypad)` answers. -/
  pad_is_blocked : Bool
  /-- Children of the bin, in the order added. -/
  children : List Element
  /-- Handle the next created element gets. -/
  next_id : Nat
  /-- The framework calls made so far, oldest first. -/
  log : List Action
deriving DecidableEq, Repr

/-- The factories the registry can resolve, by name. -/
abbrev Registry := List String

/-- Record one framework call. -/
def emit (a : Action) (self : GstPlaySinkConvertBin) : GstPlaySinkConvertBin :=
  { self with log := self.log ++ [a] }

/-- Modelled from the spec: `gst_element_factory_make (factory, name)` of the framework
("create processing nodes by name"): NULL when the registry has no such factory, else a
new element with a handle not used before. -/
def gst_element_factory_make (reg : Registry) (factory name : String)
    (self : GstPlaySinkConvertBin) : Option Element × GstPlaySinkConvertBin :=
  if factory ∈ reg then
    (some { id := self.next_id, factory := factory, name := name },
      { self with next_id := self.next_id + 1 })
  else (none, self)

/-- Modelled from the spec: `gst_bin_add` of the framework ("add a node as a child of this
container"). -/
def gst_bin_add (el : Element) (self : GstPlaySinkConvertBin) : GstPlaySinkConvertBin :=
  emit (.bin_add el) { self with children := self.children ++ [el] }

/-- Modelled from the spec: `gst_bin_remove` of the framework ("remove a node as a child of
this container"). -/
def gst_bin_remove (el : Element) (self : GstPlaySinkConvertBin) : GstPlaySinkConvertBin :=
  emit (.bin_remove el) { self with children := self.children.filter (fun c => c != el) }

/-- `gst_element_get_static_pad (element, name)`; NULL for a NULL element (the framework's
argument check). -/
def gst_element_get_static_pad (element : Option Element) (name : String) : Option Pad :=
  element.map (fun el => Pad.static el name)

/-- Modelled from the spec: `gst_ghost_pad_set_target (self->sinkpad, target)` of the
framework ("set a port target"); a NULL target unsets it. -/
def set_sink_target (target : Option Pad) (self : GstPlaySinkConvertBin) :
    GstPlaySinkConvertBin :=
  emit (.set_target .sinkpad target) { self with sink_target := target }

/-- Modelled from the spec: `gst_ghost_pad_set_target (self->srcpad, target)` of the
framework. -/
def set_src_target (target : Option Pad) (self : GstPlaySinkConvertBin) :
    GstPlaySinkConvertBin :=
  emit (.set_target .srcpad target) { self with src_target := target }

/-- Modelled from the spec: `gst_pad_set_blocked_async_full (self->sink_proxypad, blocked,
pad_blocked_cb, ...)` of the framework ("request asynchronous block/unblock of a port with a
completion callback"): the request is recorded and the pad's blocked flag takes the
requested value; the callback runs later, as a separate step. -/
def gst_pad_set_blocked_async_full (blocked : Bool) (self : GstPlaySinkConvertBin) :
    GstPlaySinkConvertBin :=
  emit (.set_blocked_async .sink_proxypad blocked) { self with pad_is_blocked := blocked }

/-! ## The functions of the file -/

/-- `gst_play_sink_convert_bin_post_missing_element_message` (lines 66-74). -/
def gst_play_sink_convert_bin_post_missing_element_message (name : String)
    (self : GstPlaySinkConvertBin) : GstPlaySinkConvertBin :=
  emit (.post_missing_element name) self

/-- `distribute_running_time (element, segment)` (lines 76-96). -/
def distribute_running_time (element : Element) (segment : GstSegment)
    (self : GstPlaySinkConvertBin) : GstPlaySinkConvertBin :=
  let pad := Pad.static element "sink"
  let self :=
    if segment.accum ≠ 0 then
      emit (.send_event pad (.new_segment_full false segment.rate segment.applied_rate
        segment.format 0 segment.accum 0)) self
    else self
  emit (.send_event pad (.new_segment_full false segment.rate segment.applied_rate
    segment.format segment.start segment.stop segment.time)) self

/-- `gst_play_sink_convert_bin_add_conversion_element` (lines 98-104). -/
def gst_play_sink_convert_bin_add_conversion_element (el : Element)
    (self : GstPlaySinkConvertBin) : GstPlaySinkConvertBin :=
  let self := { self with conversion_elements := self.conversion_elements ++ [el] }
  gst_bin_add el self

/-- `gst_play_sink_convert_bin_add_conversion_element_factory` (lines 106-124). -/
def gst_play_sink_convert_bin_add_conversion_element_factory (reg : Registry)
    (factory name : String) (self : GstPlaySinkConvertBin) :
    Option Element × GstPlaySinkConvertBin :=
  match gst_element_factory_make reg factory name self with
  | (none, self) =>
    let self := gst_play_sink_convert_bin_post_missing_element_message factory self
    let self := emit (.element_warning factory self.audio) self
    (none, self)
  | (some el, self) => (some el, gst_play_sink_convert_bin_add_conversion_element el self)

/-- `gst_play_sink_convert_bin_add_identity` (lines 126-143). -/
def gst_play_sink_convert_bin_add_identity (reg : Registry) (self : GstPlaySinkConvertBin) :
    GstPlaySinkConvertBin :=
  match gst_element_factory_make reg "identity" "identity" self with
  | (none, self) =>
    let self := { self with identity := none }
    let self := gst_play_sink_convert_bin_post_missing_element_message "identity" self
    emit (.element_warning "identity" self.audio) self
  | (some el, self) =>
    let self := { self with identity := some el }
    let self := gst_bin_add el self
    let self := emit (.sync_state_with_parent el) self
    distribute_running_time el self.segment self

/-- `gst_play_sink_convert_bin_set_targets` (lines 145-165). -/
def gst_play_sink_convert_bin_set_targets (self : GstPlaySinkConvertBin) :
    GstPlaySinkConvertBin :=
  let head : Option Element :=
    if self.conversion_elements = [] then self.identity else self.conversion_elements.head?
  let tail : Option Element :=
    if self.conversion_elements = [] then self.identity
    else self.conversion_elements.getLast?
  let self := set_sink_target (gst_element_get_static_pad head "sink") self
  set_src_target (gst_element_get_static_pad tail "src") self

/-- `gst_play_sink_convert_bin_remove_element` (lines 167-173). -/
def gst_play_sink_convert_bin_remove_element (element : Element)
    (self : GstPlaySinkConvertBin) : GstPlaySinkConvertBin :=
  let self := emit (.set_state element .null) self
  gst_bin_remove element self

/-- `gst_play_sink_convert_bin_on_element_added` (lines 175-181). -/
def gst_play_sink_convert_bin_on_element_added (element : Element)
    (self : GstPlaySinkConvertBin) : GstPlaySinkConvertBin :=
  let self := emit (.sync_state_with_parent element) self
  distribute_running_time element self.segment self

/-- `g_list_foreach (list, func, self)`. -/
def g_list_foreach (list : List Element)
    (func : Element → GstPlaySinkConvertBin → GstPlaySinkConvertBin)
    (self : GstPlaySinkConvertBin) : GstPlaySinkConvertBin :=
  list.foldl (fun s el => func el s) self

/-- The chain teardown, written twice in the file (lines 233-238 of `pad_blocked_cb` and
lines 453-458 of `change_state`): if the list is not NULL, every element is removed and
the list is freed and set to NULL. -/
def clear_conversion_elements (self : GstPlaySinkConvertBin) : GstPlaySinkConvertBin :=
  if self.conversion_elements ≠ [] then
    let self :=
      g_list_foreach self.conversion_elements gst_play_sink_convert_bin_remove_element self
    { self with conversion_elements := [] }
  else self

/-- Modelled from the spec: the converter chain builder, `self->add_conversion_elements`,
which is supplied by the subclass: "a callback invoked during reconfiguration that appends
zero or more converter nodes via 4.2 and returns success/failure". A builder is any program
over the two exported operations: it may ask for an element by factory name and continue
with whatever it got back, append an element it already owns, and finally return. -/
inductive Builder where
  | ret (ok : Bool)
  | by_factory (factory name : String) (k : Option Element → Builder)
  | add (el : Element) (k : Builder)

/-- Run the chain builder on the container. -/
def Builder.run (reg : Registry) :
    Builder → GstPlaySinkConvertBin → Bool × GstPlaySinkConvertBin
  | .ret ok, self => (ok, self)
  | .by_factory factory name k, self =>
    match gst_play_sink_convert_bin_add_conversion_element_factory reg factory name self with
    | (el, self) => (k el).run reg self
  | .add el k, self => k.run reg (gst_play_sink_convert_bin_add_conversion_element el self)

/-- The peer of `self->sinkpad` as `pad_blocked_cb` sees it ("There must be a peer at this
point"): its negotiated caps, if any, and what `gst_pad_get_caps_reffed` answers. -/
structure PeerPad where
  negotiated_caps : Option GstCaps
  caps : GstCaps
deriving DecidableEq, Repr

/-- Lines 197-201 of `pad_blocked_cb`: the caps the class is re-derived from. -/
def peer_current_caps (peer : PeerPad) : GstCaps :=
  match peer.negotiated_caps with
  | some caps => caps
  | none => peer.caps

/-- The label `link_failed` of `pad_blocked_cb` (lines 260-275). -/
def pad_blocked_cb_link_failed (reg : Registry) (self : GstPlaySinkConvertBin) :
    GstPlaySinkConvertBin :=
  let self := emit .element_error self
  let self := gst_play_sink_convert_bin_add_identity reg self
  let self := gst_play_sink_convert_bin_set_targets self
  let self := gst_pad_set_blocked_async_full false self
  emit .unlock self

/-- The label `unblock` of `pad_blocked_cb` followed by `done` (lines 251-258). -/
def pad_blocked_cb_unblock (self : GstPlaySinkConvertBin) : GstPlaySinkConvertBin :=
  let self := gst_pad_set_blocked_async_full false self
  emit .unlock self

/-- Lines 243-249 of `pad_blocked_cb` and the fall through to `unblock`. -/
def pad_blocked_cb_retarget (reg : Registry) (self : GstPlaySinkConvertBin) :
    GstPlaySinkConvertBin :=
  let self :=
    if self.conversion_elements = [] then gst_play_sink_convert_bin_add_identity reg self
    else self
  let self := gst_play_sink_convert_bin_set_targets self
  pad_blocked_cb_unblock self

/-- `pad_blocked_cb (pad, blocked, self)` (lines 183-276). -/
def pad_blocked_cb (reg : Registry) (builder : Builder) (peer : PeerPad) (blocked : Bool)
    (self : GstPlaySinkConvertBin) : GstPlaySinkConvertBin :=
  let self := emit .lock self
  let self := { self with sink_proxypad_blocked := blocked }
  if !blocked then emit .unlock self
  else
    let raw := is_raw_caps (peer_current_caps peer)
    if raw = self.raw then pad_blocked_cb_unblock self
    else
      let self := { self with raw := raw }
      if raw then
        let self := set_sink_target none self
        let self := set_src_target none self
        match builder.run reg self with
        | (false, self) => pad_blocked_cb_link_failed reg self
        | (true, self) =>
          let self :=
            if self.conversion_elements ≠ [] then
              g_list_foreach self.conversion_elements
                gst_play_sink_convert_bin_on_element_added self
            else self
          pad_blocked_cb_retarget reg self
      else
        let self := set_sink_target none self
        let self := set_src_target none self
        let self := clear_conversion_elements self
        pad_blocked_cb_retarget reg self

/-- Lines 329-336 of `gst_play_sink_convert_bin_sink_setcaps`: the class the handler
derives, from the name of structure 0 and the media kind. -/
def sink_setcaps_raw (audio : Bool) (caps : GstCaps) : Bool :=
  let name := gst_structure_get_name (gst_caps_get_structure caps 0)
  if audio then g_str_has_prefix name "audio/x-raw-"
  else g_str_has_prefix name "video/x-raw-"

/-- `gst_play_sink_convert_bin_sink_setcaps (pad, caps)` (lines 317-371); `setcaps_ret` is
what `gst_ghost_pad_setcaps_default` answers. -/
def gst_play_sink_convert_bin_sink_setcaps (setcaps_ret : Bool) (caps : GstCaps)
    (self : GstPlaySinkConvertBin) : Bool × GstPlaySinkConvertBin :=
  let self := emit .lock self
  let raw := sink_setcaps_raw self.audio caps
  let (reconfigure, self) :=
    if raw then
      if !self.raw && !self.pad_is_blocked then
        (true, gst_pad_set_blocked_async_full true self)
      else (false, self)
    else
      if self.raw && !self.pad_is_blocked then
        (true, gst_pad_set_blocked_async_full true self)
      else (false, self)
  let self :=
    if reconfigure then set_src_target none (set_sink_target none self) else self
  let self := emit .unlock self
  let self := emit (.setcaps_default .sinkpad caps) self
  (setcaps_ret, self)

/-- The first `switch` of `gst_play_sink_convert_bin_change_state` (lines 432-443), before
the parent class is called. -/
def change_state_before_parent (transition : GstStateChange) (self : GstPlaySinkConvertBin) :
    GstPlaySinkConvertBin :=
  match transition with
  | .paused_to_ready =>
    let self := emit .lock self
    let self := if self.pad_is_blocked then gst_pad_set_blocked_async_full false self else self
    emit .unlock self
  | _ => self

/-- The second `switch` of `gst_play_sink_convert_bin_change_state` (lines 449-483), after
the parent class has answered something other than failure. -/
def change_state_after_parent (reg : Registry) (transition : GstStateChange)
    (self : GstPlaySinkConvertBin) : GstPlaySinkConvertBin :=
  match transition with
  | .paused_to_ready =>
    let self := emit .lock self
    let self := { self with segment := gst_segment_init .undefined }
    let self := clear_conversion_elements self
    let self :=
      if self.identity = none then gst_play_sink_convert_bin_add_identity reg self else self
    let self := gst_play_sink_convert_bin_set_targets self
    let self := { self with raw := false }
    emit .unlock self
  | .ready_to_paused =>
    let self := emit .lock self
    let self := if !self.pad_is_blocked then gst_pad_set_blocked_async_full true self else self
    emit .unlock self
  | .ready_to_null =>
    match self.identity with
    | some identity =>
      let self := emit (.set_state identity .null) self
      let self := gst_bin_remove identity self
      { self with identity := none }
    | none => self
  | _ => self

/-- `gst_play_sink_convert_bin_change_state (element, transition)` (lines 425-486);
`parent_ret` is what the parent class's `change_state` answers. -/
def gst_play_sink_convert_bin_change_state (reg : Registry) (parent_ret : GstStateChangeReturn)
    (transition : GstStateChange) (self : GstPlaySinkConvertBin) :
    GstStateChangeReturn × GstPlaySinkConvertBin :=
  let self := change_state_before_parent transition self
  let self := emit (.parent_change_state transition) self
  if parent_ret = .failure then (parent_ret, self)
  else (parent_ret, change_state_after_parent reg transition self)

/-- `gst_play_sink_convert_bin_init` (lines 515-544) on the zero-filled instance; `audio`
is the media kind the subclass sets. -/
def gst_play_sink_convert_bin_init (audio : Bool) : GstPlaySinkConvertBin :=
  { audio := audio, raw := false, sink_proxypad_blocked := false, conversion_elements := [],
    identity := none, segment := gst_segment_init .undefined, sink_target := none,
    src_target := none, pad_is_blocked := false, children := [], next_id := 0, log := [] }

/-- Modelled from the spec: `gst_proxy_pad_get_internal` of the framework on the pads of
the container; the internal pad of `self->sinkpad` is the pad `init` stores in
`self->sink_proxypad` (lines 532-533). -/
def gst_proxy_pad_get_internal : Pad → Option Pad
  | .sinkpad => some .sink_proxypad
  | .sink_proxypad => some .sinkpad
  | _ => none

/-- The pad graph as a format query finds it: the peer of a pad (`gst_pad_get_peer`), the
caps a pad answers (`gst_pad_get_caps_reffed`), and the target of a ghost pad that is not
one of the container's two. -/
structure PadGraph where
  peer : Pad → Option Pad
  caps : Pad → GstCaps
  foreign_target : Pad → Option Pad

/-- Modelled from the spec: `gst_ghost_pad_get_target` of the framework ("get a port
target"). -/
def gst_ghost_pad_get_target (graph : PadGraph) (pad : Pad) (self : GstPlaySinkConvertBin) :
    Option Pad :=
  match pad with
  | .sinkpad => self.sink_target
  | .srcpad => self.src_target
  | other => graph.foreign_target other

/-- Lines 382-393 of `gst_play_sink_convert_bin_getcaps`: the pad whose peer is asked. -/
def getcaps_otherpad (graph : PadGraph) (pad : Pad) (self : GstPlaySinkConvertBin) :
    Option Pad × GstPlaySinkConvertBin :=
  match gst_ghost_pad_get_target graph pad self with
  | some otherpad => (some otherpad, self)
  | none =>
    if pad = .srcpad then (some .sink_proxypad, self)
    else if pad = .sinkpad then (gst_proxy_pad_get_internal .sinkpad, self)
    else (none, emit (.debug_error_not_our_pad pad) self)

/-- `gst_play_sink_convert_bin_getcaps (pad)` (lines 373-412). -/
def gst_play_sink_convert_bin_getcaps (graph : PadGraph) (pad : Pad)
    (self : GstPlaySinkConvertBin) : GstCaps × GstPlaySinkConvertBin :=
  let self := emit .lock self
  match getcaps_otherpad graph pad self with
  | (some otherpad, self) =>
    let self := emit .unlock self
    match graph.peer otherpad with
    | some peer => (graph.caps peer, self)
    | none => (gst_caps_new_any, self)
  | (none, self) =>
    let self := emit .unlock self
    let self := emit .debug_warning_no_traverse self
    (gst_caps_new_any, self)

/-- `gst_play_sink_convert_bin_sink_event (pad, event)` (lines 278-315); `event_ret` is
what `gst_proxy_pad_event_default` answers and `set_newsegment` stands for the framework's
`gst_segment_set_newsegment_full`, which computes with the rates. -/
def gst_play_sink_convert_bin_sink_event (event_ret : Bool)
    (set_newsegment : GstSegment → GstEvent → GstSegment) (event : GstEvent)
    (self : GstPlaySinkConvertBin) : Bool × GstPlaySinkConvertBin :=
  let self := emit (.event_default .sinkpad event) self
  match event with
  | .new_segment_full _ _ _ _ _ _ _ =>
    let self := emit .lock self
    let self := { self with segment := set_newsegment self.segment event }
    (event_ret, emit .unlock self)
  | .flush_stop =>
    let self := emit .lock self
    let self := { self with segment := gst_segment_init .undefined }
    (event_ret, emit .unlock self)
  | .other _ => (event_ret, self)

/-- The container as `pad_blocked_cb` hands it to the chain builder at line 218 when the
re-derived class is raw and differs from the stored one: locked (line 190), the blocked
flag set (line 191), `raw` updated (line 209) and both ghost pad targets unset (lines
214-215). -/
def builder_input (self : GstPlaySinkConvertBin) : GstPlaySinkConvertBin :=
  let self := emit .lock self
  let self := { self with sink_proxypad_blocked := true }
  let self := { self with raw := true }
  let self := set_sink_target none self
  set_src_target none self

/-- The framework calls a callback run has added to the log. -/
def new_log (before after : GstPlaySinkConvertBin) : List Action :=
  after.log.drop before.log.length

/-- Whether a log entry is a block or unblock request on any pad. -/
def is_block_request : Action → Bool
  | .set_blocked_async _ _ => true
  | _ => false

/-- The calls the two exported chain operations can make: a missing-element message, its
warning, and `gst_bin_add`. -/
def is_builder_action : Action → Bool
  | .post_missing_element _ => true
  | .element_warning _ _ => true
  | .bin_add _ => true
  | _ => false

/-- What a run of the chain builder may change: it appends elements to the chain and to
the bin, takes fresh handles and logs only the calls of the two exported operations. -/
structure BuilderFrame (s t : GstPlaySinkConvertBin) : Prop where
  audio : t.audio = s.audio
  raw : t.raw = s.raw
  sink_proxypad_blocked : t.sink_proxypad_blocked = s.sink_proxypad_blocked
  identity : t.identity = s.identity
  segment : t.segment = s.segment
  sink_target : t.sink_target = s.sink_target
  src_target : t.src_target = s.src_target
  pad_is_blocked : t.pad_is_blocked = s.pad_is_blocked
  next_id : s.next_id ≤ t.next_id
  appended : ∃ added, t.conversion_elements = s.conversion_elements ++ added
    ∧ t.children = s.children ++ added
  logged : ∃ extra, t.log = s.log ++ extra ∧ ∀ a ∈ extra, is_builder_action a = true

/-- The actions `distribute_running_time (element, segment)` logs, in order: the boundary
event when the accumulated offset is non-zero, then the current segment. -/
def running_time_actions (element : Element) (segment : GstSegment) : List Action :=
  (if segment.accum ≠ 0 then
    [Action.send_event (Pad.static element "sink") (.new_segment_full false segment.rate
      segment.applied_rate segment.format 0 segment.accum 0)]
   else [])
  ++ [Action.send_event (Pad.static element "sink") (.new_segment_full false segment.rate
      segment.applied_rate segment.format segment.start segment.stop segment.time)]

/-! ## Scenarios -/

/-- Caps with the given structure names, ANY flag clear. -/
def caps_of_names (names : List String) : GstCaps :=
  { any := false, structs := names.map GstStructure.mk }

/-- A fresh audio-mode container. -/
def fresh_audio : GstPlaySinkConvertBin := gst_play_sink_convert_bin_init true

/-- A peer whose negotiated caps are raw audio. -/
def raw_audio_peer : PeerPad :=
  { negotiated_caps := some (caps_of_names ["audio/x-raw-int"]),
    caps := caps_of_names ["audio/x-raw-int"] }

/-- A peer whose negotiated caps are encoded audio. -/
def encoded_audio_peer : PeerPad :=
  { negotiated_caps := some (caps_of_names ["audio/mpeg"]),
    caps := caps_of_names ["audio/mpeg"] }

/-- A chain builder that asks for an `audioconvert` and then reports failure (as when a
link cannot be made). -/
def failing_builder : Builder :=
  .by_factory "audioconvert" "conv" (fun _ => .ret false)

/-- A chain builder that appends nothing and reports success. -/
def empty_builder : Builder := .ret true

/-- An audio container that has been stopped to READY once (so it holds a pass-through
node with both ghost pads targeted at it), brought to PAUSED, and whose first block
confirmation found encoded audio: the stored class is not-raw and data flows. -/
def idle_encoded : GstPlaySinkConvertBin :=
  pad_blocked_cb ["identity"] empty_builder encoded_audio_peer true
    (gst_play_sink_convert_bin_change_state ["identity"] .success .ready_to_paused
      (gst_play_sink_convert_bin_change_state ["identity"] .success .paused_to_ready
          fresh_audio).2).2

/-- A fresh audio container brought from READY to PAUSED: the block requested by the
transition is pending and neither ghost pad has had a target yet. -/
def fresh_paused : GstPlaySinkConvertBin :=
  (gst_play_sink_convert_bin_change_state ["identity"] .success .ready_to_paused fresh_audio).2

/-- From `fresh_paused`: the block is confirmed with raw audio at the peer and the builder
appends nothing, so the stored class is raw and the pass-through node carries the data. -/
def running_raw : GstPlaySinkConvertBin :=
  pad_blocked_cb ["identity"] empty_builder raw_audio_peer true fresh_paused

/-- From `idle_encoded`: upstream announces raw audio (the handler requests a block and
unsets both targets), then flips back to encoded audio before the block is confirmed. -/
def flipped_back : GstPlaySinkConvertBin :=
  (gst_play_sink_convert_bin_sink_setcaps true (caps_of_names ["audio/mpeg"])
    (gst_play_sink_convert_bin_sink_setcaps true (caps_of_names ["audio/x-raw-int"])
        idle_encoded).2).2

/-- Whether a log entry is `gst_element_sync_state_with_parent` of the given element. -/
def is_sync_of (el : Element) : Action → Bool
  | .sync_state_with_parent e => e == el
  | _ => false

/-- Whether a log entry is an event sent to the sink pad of the given element. -/
def is_event_for (el : Element) : Action → Bool
  | .send_event p _ => p == Pad.static el "sink"
  | _ => false

/-- Both ghost pads are targeted as `set_targets` leaves them: at the sink pad of the
first and the src pad of the last element of the chain, or at the pads of the pass-through
node when the chain is empty. -/
def targets_follow_chain (s : GstPlaySinkConvertBin) : Prop :=
  s.sink_target = gst_element_get_static_pad
      (if s.conversion_elements = [] then s.identity else s.conversion_elements.head?) "sink"
    ∧ s.src_target = gst_element_get_static_pad
      (if s.conversion_elements = [] then s.identity else s.conversion_elements.getLast?) "src"

/-- The classifier as the specification words it (section 4.1 and section 8): raw exactly
when the set is non-empty and every type tag has the raw prefix of the container's
media kind. -/
def spec_classify (audio : Bool) (caps : GstCaps) : Bool :=
  let raw_tag := if audio then "audio/x-raw" else "video/x-raw"
  !caps.structs.isEmpty && caps.structs.all (fun s => g_str_has_prefix (some s.name) raw_tag)

/-! ## Scenarios and vocabulary for the end-to-end and query properties -/

/-- The pass-through nodes the bin holds: its children made by the identity factory. -/
def passthrough_children (s : GstPlaySinkConvertBin) : List Element :=
  s.children.filter (fun c => c.factory == "identity")

/-- A peer that declares raw audio and whose negotiated caps are encoded audio. -/
def renegotiated_peer : PeerPad :=
  { negotiated_caps := some (caps_of_names ["audio/mpeg"]),
    caps := caps_of_names ["audio/x-raw-int"] }

/-- A peer without negotiated caps that declares raw audio. -/
def unnegotiated_raw_peer : PeerPad :=
  { negotiated_caps := none, caps := caps_of_names ["audio/x-raw-int"] }

/-- A format descriptor arrives at the inbound-format handler and the block is then
confirmed while the peer's negotiated format is that descriptor. -/
def descriptor_then_confirm (reg : Registry) (builder : Builder) (setcaps_ret : Bool)
    (caps : GstCaps) (self : GstPlaySinkConvertBin) : GstPlaySinkConvertBin :=
  pad_blocked_cb reg builder { negotiated_caps := some caps, caps := caps } true
    (gst_play_sink_convert_bin_sink_setcaps setcaps_ret caps self).2

/-- The calls a block confirmation makes between taking the lock and requesting the
unblock: everything but the lock, the unlock and block or unblock requests. -/
def is_inner_action : Action → Bool
  | .lock => false
  | .unlock => false
  | .set_blocked_async _ _ => false
  | _ => true

/-- The log of `t` is the log of `s` followed by inner actions only. -/
def adds_inner_actions (s t : GstPlaySinkConvertBin) : Prop :=
  ∃ extra, t.log = s.log ++ extra ∧ ∀ a ∈ extra, is_inner_action a = true

/-- A pad graph in which the internal proxy pad of the sink ghost pad is linked to the pad
`other 7`: the proxy pad answers encoded audio, `other 7` answers raw audio. -/
def linked_proxy_graph : PadGraph :=
  { peer := fun p =>
      match p with
      | .sink_proxypad => some (.other 7)
      | .other 7 => some .sink_proxypad
      | _ => none,
    caps := fun p =>
      match p with
      | .other 7 => caps_of_names ["audio/x-raw-int"]
      | _ => caps_of_names ["audio/mpeg"],
    foreign_target := fun _ => none }

/-- From `running_raw` (which holds the pass-through node made at the first confirmation):
upstream announces encoded audio and the block is confirmed. -/
def raw_then_encoded : GstPlaySinkConvertBin :=
  descriptor_then_confirm ["identity"] empty_builder true (caps_of_names ["audio/mpeg"])
    running_raw

end PlaySinkConvertBin

namespace PlaySinkConvertBin

/-! ## The format classifier -/

theorem g_str_has_prefix_shorter (name p q : String) (hpq : p.data <+: q.data)
    (h : g_str_has_prefix (some name) q = true) : g_str_has_prefix (some name) p = true := by
  simp only [ g_str_has_prefix, List.isPrefixOf_iff_prefix] at h ⊢
  exact hpq.trans h

theorem is_raw_caps_loop_iff (l : List GstStructure) :
    is_raw_caps_loop l = true ↔
      ∀ s ∈ l, g_str_has_prefix (some s.name) "audio/x-raw" = true
        ∨ g_str_has_prefix (some s.name) "video/x-raw" = true := by
  induction l with
  | nil => simp [is_raw_caps_loop]
  | cons a l ih =>
    simp only [is_raw_caps_loop, List.mem_cons, forall_eq_or_imp]
    rw [← ih]
    cases h1 : g_str_has_prefix (some a.name) "audio/x-raw" <;>
      cases h2 : g_str_has_prefix (some a.name) "video/x-raw" <;> simp

/-- C2, counterexample: an audio-mode container is given the one-structure set
`video/x-raw-yuv`. `is_raw_caps` answers raw, although the structure's name does not have
the audio raw prefix, so the classifier as the specification words it answers not raw. -/
theorem is_raw_caps_ignores_media_kind :
    is_raw_caps (caps_of_names ["video/x-raw-yuv"]) = true
      ∧ (caps_of_names ["video/x-raw-yuv"]).structs ≠ []
      ∧ ¬ (∀ s ∈ (caps_of_names ["video/x-raw-yuv"]).structs,
            g_str_has_prefix (some s.name) "audio/x-raw" = true)
      ∧ spec_classify fresh_audio.audio (caps_of_names ["video/x-raw-yuv"]) = false := by
  decide

/-- C2, amended: for every format descriptor set, whatever the media kind of the
container, `is_raw_caps` returns raw if and only if every structure name in the set has the
prefix `audio/x-raw` or the prefix `video/x-raw`. -/
theorem is_raw_caps_iff_every_name_raw (caps : GstCaps) :
    is_raw_caps caps = true ↔
      ∀ s ∈ caps.structs, g_str_has_prefix (some s.name) "audio/x-raw" = true
        ∨ g_str_has_prefix (some s.name) "video/x-raw" = true :=
  is_raw_caps_loop_iff caps.structs

/-- C3, counterexample: on the set with zero structures `is_raw_caps` does not answer
encoded. -/
theorem is_raw_caps_empty_not_encoded :
    gst_caps_get_size (caps_of_names []) = 0 ∧ is_raw_caps (caps_of_names []) ≠ false := by
  decide

/-- C3, amended: applied to a format descriptor set with zero structures (the ANY set
included), `is_raw_caps` returns raw. -/
theorem is_raw_caps_empty (any : Bool) : is_raw_caps { any := any, structs := [] } = true := by
  rfl

/-! ## The inbound-format handler -/

/-- C4: when the class `sink_setcaps` computes equals the stored raw flag, the handler
makes exactly three framework calls (lock, unlock, the default setcaps), none of them a
block request, and leaves the blocked state of the proxy pad, the conversion chain, the
pass-through node, the stored raw flag, both ghost pad targets and the bin's children
unchanged. -/
theorem sink_setcaps_same_class_untouched (setcaps_ret : Bool) (caps : GstCaps)
    (self : GstPlaySinkConvertBin) (h : sink_setcaps_raw self.audio caps = self.raw) :
    (gst_play_sink_convert_bin_sink_setcaps setcaps_ret caps self).2.log
        = self.log ++ [.lock, .unlock, .setcaps_default .sinkpad caps]
      ∧ (∀ a ∈ new_log self (gst_play_sink_convert_bin_sink_setcaps setcaps_ret caps self).2,
          is_block_request a = false)
      ∧ (gst_play_sink_convert_bin_sink_setcaps setcaps_ret caps self).2.pad_is_blocked
          = self.pad_is_blocked
      ∧ (gst_play_sink_convert_bin_sink_setcaps setcaps_ret caps self).2.conversion_elements
          = self.conversion_elements
      ∧ (gst_play_sink_convert_bin_sink_setcaps setcaps_ret caps self).2.identity = self.identity
      ∧ (gst_play_sink_convert_bin_sink_setcaps setcaps_ret caps self).2.raw = self.raw
      ∧ (gst_play_sink_convert_bin_sink_setcaps setcaps_ret caps self).2.sink_target
          = self.sink_target
      ∧ (gst_play_sink_convert_bin_sink_setcaps setcaps_ret caps self).2.src_target
          = self.src_target
      ∧ (gst_play_sink_convert_bin_sink_setcaps setcaps_ret caps self).2.children
          = self.children := by
  have e : (gst_play_sink_convert_bin_sink_setcaps setcaps_ret caps self).2
      = { self with log := self.log ++ [.lock, .unlock, .setcaps_default .sinkpad caps] } := by
    cases hr : self.raw <;> simp [gst_play_sink_convert_bin_sink_setcaps, emit, h, hr]
  rw [e]
  simp [new_log, is_block_request]

/-- C4, witness: an audio container with stored class not-raw receives `audio/mpeg`. -/
theorem sink_setcaps_same_class_untouched_witness :
    (gst_play_sink_convert_bin_sink_setcaps true (caps_of_names ["audio/mpeg"]) fresh_audio).2.log
        = fresh_audio.log ++ [.lock, .unlock, .setcaps_default .sinkpad (caps_of_names
            ["audio/mpeg"])]
      ∧ (gst_play_sink_convert_bin_sink_setcaps true (caps_of_names ["audio/mpeg"])
          fresh_audio).2.raw = false :=
  ⟨(sink_setcaps_same_class_untouched true (caps_of_names ["audio/mpeg"]) fresh_audio
      (by decide)).1,
    (sink_setcaps_same_class_untouched true (caps_of_names ["audio/mpeg"]) fresh_audio
      (by decide)).2.2.2.2.2.1⟩

/-- C5, counterexample: for an audio-mode container `sink_setcaps` and `is_raw_caps`
disagree in both directions: the raw video set is not raw for the handler and raw for the
classifier; a set whose first structure is raw audio and whose second is `audio/mpeg` is
raw for the handler and not raw for the classifier. -/
theorem sink_setcaps_raw_differs_from_is_raw_caps :
    (sink_setcaps_raw true (caps_of_names ["video/x-raw-yuv"]) = false
        ∧ is_raw_caps (caps_of_names ["video/x-raw-yuv"]) = true)
      ∧ (sink_setcaps_raw true (caps_of_names ["audio/x-raw-int", "audio/mpeg"]) = true
        ∧ is_raw_caps (caps_of_names ["audio/x-raw-int", "audio/mpeg"]) = false) := by
  decide

/-- C5, amended: for every descriptor set of exactly one structure and either media kind,
if `sink_setcaps` treats the set as raw then `is_raw_caps` returns raw for it. -/
theorem sink_setcaps_raw_imp_is_raw_caps (audio any : Bool) (name : String)
    (h : sink_setcaps_raw audio { any := any, structs := [⟨name⟩] } = true) :
    is_raw_caps { any := any, structs := [⟨name⟩] } = true := by
  rw [is_raw_caps, is_raw_caps_loop_iff]
  intro s hs
  simp only [List.mem_singleton] at hs
  subst hs
  simp only [sink_setcaps_raw, gst_structure_get_name, gst_caps_get_structure,
    List.getElem?_cons_zero, Option.map_some'] at h
  cases audio
  · right
    simp only [Bool.false_eq_true, if_false] at h
    exact g_str_has_prefix_shorter name _ _ ⟨['-'], rfl⟩ h
  · left
    simp only [if_true] at h
    exact g_str_has_prefix_shorter name _ _ ⟨['-'], rfl⟩ h

/-- C5, witness: the one-structure set `audio/x-raw-int` in an audio-mode container. -/
theorem sink_setcaps_raw_imp_is_raw_caps_witness :
    sink_setcaps_raw true { any := false, structs := [⟨"audio/x-raw-int"⟩] } = true
      ∧ is_raw_caps { any := false, structs := [⟨"audio/x-raw-int"⟩] } = true :=
  ⟨by decide, sink_setcaps_raw_imp_is_raw_caps true false "audio/x-raw-int" (by decide)⟩

/-! ## The chain builder only appends -/

theorem BuilderFrame.refl (s : GstPlaySinkConvertBin) : BuilderFrame s s :=
  ⟨rfl, rfl, rfl, rfl, rfl, rfl, rfl, rfl, le_refl _, ⟨[], by simp, by simp⟩,
    ⟨[], by simp, by simp⟩⟩

theorem BuilderFrame.trans {s t u : GstPlaySinkConvertBin} (h1 : BuilderFrame s t)
    (h2 : BuilderFrame t u) : BuilderFrame s u := by
  obtain ⟨a1, ha1, hc1⟩ := h1.appended
  obtain ⟨a2, ha2, hc2⟩ := h2.appended
  obtain ⟨x1, hx1, hb1⟩ := h1.logged
  obtain ⟨x2, hx2, hb2⟩ := h2.logged
  refine ⟨h2.audio.trans h1.audio, h2.raw.trans h1.raw,
    h2.sink_proxypad_blocked.trans h1.sink_proxypad_blocked, h2.identity.trans h1.identity,
    h2.segment.trans h1.segment, h2.sink_target.trans h1.sink_target,
    h2.src_target.trans h1.src_target, h2.pad_is_blocked.trans h1.pad_is_blocked,
    le_trans h1.next_id h2.next_id, ⟨a1 ++ a2, ?_, ?_⟩, ⟨x1 ++ x2, ?_, ?_⟩⟩
  · rw [ha2, ha1, List.append_assoc]
  · rw [hc2, hc1, List.append_assoc]
  · rw [hx2, hx1, List.append_assoc]
  · intro a ha
    rcases List.mem_append.mp ha with h | h
    · exact hb1 a h
    · exact hb2 a h

theorem add_conversion_element_frame (el : Element) (s : GstPlaySinkConvertBin) :
    BuilderFrame s (gst_play_sink_convert_bin_add_conversion_element el s) :=
  ⟨rfl, rfl, rfl, rfl, rfl, rfl, rfl, rfl, le_refl _, ⟨[el], rfl, rfl⟩,
    ⟨[.bin_add el], rfl, by simp [is_builder_action]⟩⟩

theorem add_conversion_element_factory_frame (reg : Registry) (factory name : String)
    (s : GstPlaySinkConvertBin) :
    BuilderFrame s (gst_play_sink_convert_bin_add_conversion_element_factory reg factory name s).2
        := by
  unfold gst_play_sink_convert_bin_add_conversion_element_factory gst_element_factory_make
  by_cases h : factory ∈ reg
  · simp only [h, if_true]
    exact ⟨rfl, rfl, rfl, rfl, rfl, rfl, rfl, rfl, Nat.le_succ _, ⟨[_], rfl, rfl⟩,
      ⟨[.bin_add _], rfl, by simp [is_builder_action]⟩⟩
  · simp only [h, if_false]
    exact ⟨rfl, rfl, rfl, rfl, rfl, rfl, rfl, rfl, le_refl _,
      ⟨[], by simp [gst_play_sink_convert_bin_post_missing_element_message, emit],
        by simp [gst_play_sink_convert_bin_post_missing_element_message, emit]⟩,
      ⟨[.post_missing_element factory, .element_warning factory s.audio],
        by simp [gst_play_sink_convert_bin_post_missing_element_message, emit], by simp
            [is_builder_action]⟩⟩

theorem Builder.run_frame (reg : Registry) (b : Builder) :
    ∀ s : GstPlaySinkConvertBin, BuilderFrame s (b.run reg s).2 := by
  induction b with
  | ret ok => intro s; exact BuilderFrame.refl s
  | by_factory factory name k ih =>
    intro s
    simp only [Builder.run]
    exact (add_conversion_element_factory_frame reg factory name s).trans (ih _ _)
  | add el k ih =>
    intro s
    simp only [Builder.run]
    exact (add_conversion_element_frame el s).trans (ih _)

/-! ## What each helper of the callback does to the container -/

theorem distribute_running_time_eq (el : Element) (seg : GstSegment)
    (s : GstPlaySinkConvertBin) :
    distribute_running_time el seg s = { s with log := s.log ++ running_time_actions el seg } := by
  unfold distribute_running_time running_time_actions emit
  by_cases h : seg.accum = 0 <;> simp [h]

theorem mem_running_time_actions {el : Element} {seg : GstSegment} {a : Action}
    (h : a ∈ running_time_actions el seg) : ∃ ev, a = .send_event (.static el "sink") ev := by
  unfold running_time_actions at h
  by_cases hz : seg.accum = 0
  · simp [hz] at h; exact ⟨_, h⟩
  · simp [hz] at h
    rcases h with h | h <;> exact ⟨_, h⟩

theorem on_element_added_eq (el : Element) (s : GstPlaySinkConvertBin) :
    gst_play_sink_convert_bin_on_element_added el s
      = { s with log := s.log ++ (.sync_state_with_parent el :: running_time_actions el s.segment)
          } := by
  simp [gst_play_sink_convert_bin_on_element_added, distribute_running_time_eq, emit]

theorem remove_element_eq (el : Element) (s : GstPlaySinkConvertBin) :
    gst_play_sink_convert_bin_remove_element el s
      = { s with children := s.children.filter (fun c => c != el),
                 log := s.log ++ [.set_state el .null, .bin_remove el] } := by
  simp [gst_play_sink_convert_bin_remove_element, gst_bin_remove, emit]

theorem add_identity_found (reg : Registry) (s : GstPlaySinkConvertBin)
    (h : "identity" ∈ reg) :
    gst_play_sink_convert_bin_add_identity reg s
      = { s with identity := some ⟨s.next_id, "identity", "identity"⟩,
                 children := s.children ++ [⟨s.next_id, "identity", "identity"⟩],
                 next_id := s.next_id + 1,
                 log := s.log ++ (.bin_add ⟨s.next_id, "identity", "identity"⟩
                   :: .sync_state_with_parent ⟨s.next_id, "identity", "identity"⟩
                   :: running_time_actions ⟨s.next_id, "identity", "identity"⟩ s.segment) } := by
  simp [gst_play_sink_convert_bin_add_identity, gst_element_factory_make, h,
      distribute_running_time_eq, gst_bin_add, emit]

theorem add_identity_missing (reg : Registry) (s : GstPlaySinkConvertBin)
    (h : "identity" ∉ reg) :
    gst_play_sink_convert_bin_add_identity reg s
      = { s with identity := none,
                 log := s.log ++ [.post_missing_element "identity",
                   .element_warning "identity" s.audio] } := by
  simp [gst_play_sink_convert_bin_add_identity, gst_element_factory_make, h,
      gst_play_sink_convert_bin_post_missing_element_message, emit]

theorem set_targets_eq (s : GstPlaySinkConvertBin) :
    gst_play_sink_convert_bin_set_targets s
      = { s with
          sink_target := gst_element_get_static_pad
            (if s.conversion_elements = [] then s.identity else s.conversion_elements.head?) "sink",
          src_target := gst_element_get_static_pad
            (if s.conversion_elements = [] then s.identity
              else s.conversion_elements.getLast?) "src",
          log := s.log ++ [
            .set_target .sinkpad (gst_element_get_static_pad
              (if s.conversion_elements = [] then s.identity
                else s.conversion_elements.head?) "sink"),
            .set_target .srcpad (gst_element_get_static_pad
              (if s.conversion_elements = [] then s.identity
                else s.conversion_elements.getLast?) "src")] } := by
  simp [gst_play_sink_convert_bin_set_targets, set_sink_target, set_src_target, emit]

theorem pad_blocked_cb_unblock_eq (s : GstPlaySinkConvertBin) :
    pad_blocked_cb_unblock s
      = { s with pad_is_blocked := false,
                 log := s.log ++ [.set_blocked_async .sink_proxypad false, .unlock] } := by
  simp [pad_blocked_cb_unblock, gst_pad_set_blocked_async_full, emit]

/-- A field that every call of the visitor leaves alone is left alone by the traversal. -/
theorem g_list_foreach_keeps {α : Type} (field : GstPlaySinkConvertBin → α)
    (func : Element → GstPlaySinkConvertBin → GstPlaySinkConvertBin)
    (hf : ∀ el s, field (func el s) = field s) (list : List Element) :
    ∀ s, field (g_list_foreach list func s) = field s := by
  induction list with
  | nil => intro s; rfl
  | cons a l ih =>
    intro s
    simp only [g_list_foreach, List.foldl_cons] at ih ⊢
    rw [ih, hf]

/-- The log only grows along a traversal whose visitor only appends to it. -/
theorem g_list_foreach_log_grows
    (func : Element → GstPlaySinkConvertBin → GstPlaySinkConvertBin)
    (hf : ∀ el s, s.log <+: (func el s).log) (list : List Element) :
    ∀ s, s.log <+: (g_list_foreach list func s).log := by
  induction list with
  | nil => intro s; exact List.prefix_refl _
  | cons a l ih =>
    intro s
    simp only [g_list_foreach, List.foldl_cons] at ih ⊢
    exact (hf a s).trans (ih _)

theorem pad_blocked_cb_same_class (reg : Registry) (builder : Builder) (peer : PeerPad)
    (s : GstPlaySinkConvertBin) (h : is_raw_caps (peer_current_caps peer) = s.raw) :
    pad_blocked_cb reg builder peer true s
      = { s with sink_proxypad_blocked := true, pad_is_blocked := false,
                 log := s.log ++ [.lock, .set_blocked_async .sink_proxypad false, .unlock] } := by
  simp [pad_blocked_cb, pad_blocked_cb_unblock_eq, emit, h]

theorem pad_blocked_cb_to_raw (reg : Registry) (builder : Builder) (peer : PeerPad)
    (s : GstPlaySinkConvertBin) (hclass : is_raw_caps (peer_current_caps peer) = true)
    (hstored : s.raw = false) :
    pad_blocked_cb reg builder peer true s
      = match builder.run reg (builder_input s) with
        | (false, t) => pad_blocked_cb_link_failed reg t
        | (true, t) =>
          pad_blocked_cb_retarget reg
            (if t.conversion_elements ≠ [] then
              g_list_foreach t.conversion_elements gst_play_sink_convert_bin_on_element_added t
                  else t) := by
  simp [pad_blocked_cb, builder_input, emit, hclass, hstored]

theorem builder_input_fields (s : GstPlaySinkConvertBin) :
    (builder_input s).conversion_elements = s.conversion_elements
      ∧ (builder_input s).children = s.children
      ∧ (builder_input s).identity = s.identity
      ∧ (builder_input s).raw = true
      ∧ (builder_input s).log
          = s.log ++ [.lock, .set_target .sinkpad none, .set_target .srcpad none] := by
  simp [builder_input, set_sink_target, set_src_target, emit]

theorem count_eq_zero_of_builder_actions {extra : List Action} {a : Action}
    (hext : ∀ x ∈ extra, is_builder_action x = true) (ha : is_builder_action a = false) :
    extra.count a = 0 := by
  rw [List.count_eq_zero]
  intro hmem
  rw [hext a hmem] at ha
  exact Bool.noConfusion ha

theorem count_running_time_actions_eq_zero (el : Element) (seg : GstSegment) (a : Action)
    (ha : ∀ ev, a ≠ .send_event (.static el "sink") ev) :
    (running_time_actions el seg).count a = 0 := by
  rw [List.count_eq_zero]
  intro hmem
  obtain ⟨ev, hev⟩ := mem_running_time_actions hmem
  exact ha ev hev

/-- C6, amended: a block is confirmed for a transition to raw from a state with an empty
chain that holds no pass-through node, the chain builder returns failure having appended
zero nodes, and the identity factory can be resolved. Then after `pad_blocked_cb` the
container holds exactly one pass-through node (the only child of the bin made by the
identity factory, stored in `self->identity`), the chain is still empty, both ghost pad
targets are that node's sink and src pads, the run posted exactly one element error and
requested the unblock of the proxy pad exactly once. -/
theorem pad_blocked_cb_fallback_identity (reg : Registry) (builder : Builder) (peer : PeerPad)
    (s : GstPlaySinkConvertBin) (hreg : "identity" ∈ reg)
    (hclass : is_raw_caps (peer_current_caps peer) = true) (hstored : s.raw = false)
    (hchain : s.conversion_elements = [])
    (hholds : s.identity = none ∧ passthrough_children s = [])
    (hfail : (builder.run reg (builder_input s)).1 = false)
    (hzero : (builder.run reg (builder_input s)).2.conversion_elements = []) :
    ∃ el : Element, el.factory = "identity"
      ∧ (pad_blocked_cb reg builder peer true s).identity = some el
      ∧ passthrough_children (pad_blocked_cb reg builder peer true s) = [el]
      ∧ (pad_blocked_cb reg builder peer true s).conversion_elements = []
      ∧ (pad_blocked_cb reg builder peer true s).children = s.children ++ [el]
      ∧ (pad_blocked_cb reg builder peer true s).sink_target = some (.static el "sink")
      ∧ (pad_blocked_cb reg builder peer true s).src_target = some (.static el "src")
      ∧ (new_log s (pad_blocked_cb reg builder peer true s)).count .element_error = 1
      ∧ (new_log s (pad_blocked_cb reg builder peer true s)).count
          (.set_blocked_async .sink_proxypad false) = 1
      ∧ (pad_blocked_cb reg builder peer true s).pad_is_blocked = false := by
  have hfr := Builder.run_frame reg builder (builder_input s)
  obtain ⟨added, hadd, hch⟩ := hfr.appended
  obtain ⟨extra, hlog, hext⟩ := hfr.logged
  obtain ⟨hbc, hbch, -, -, hbl⟩ := builder_input_fields s
  have hkids := hholds.2
  rw [pad_blocked_cb_to_raw reg builder peer s hclass hstored]
  generalize builder.run reg (builder_input s) = r at *
  obtain ⟨ok, t⟩ := r
  simp only at hfail hzero hadd hch hlog
  subst hfail
  rw [hzero, hbc, hchain] at hadd
  have hadded : added = [] := by simpa using hadd.symm
  subst hadded
  rw [hbch, List.append_nil] at hch
  rw [hbl] at hlog
  refine ⟨⟨t.next_id, "identity", "identity"⟩, rfl, ?_⟩
  unfold passthrough_children at hkids ⊢
  simp only [pad_blocked_cb_link_failed, emit, add_identity_found _ _ hreg, set_targets_eq,
    gst_pad_set_blocked_async_full, hzero, hch, hlog, new_log, gst_element_get_static_pad]
  simp [List.count_append, count_eq_zero_of_builder_actions hext,
    count_running_time_actions_eq_zero, is_builder_action, List.count_cons,
    List.filter_append, hkids]

/-- C6, counterexample. First input: the registry cannot resolve `identity`; a block is
confirmed for a transition to raw on a fresh audio container (empty chain) and the builder
fails having appended nothing; afterwards the container holds no pass-through node and
neither ghost pad has a target. Second input: the registry resolves `identity` and the
container `idle_encoded` already holds the pass-through node `identity#0`; the same
confirmation makes `identity#1`, and the bin then holds two pass-through nodes. -/
theorem pad_blocked_cb_fallback_without_identity_factory :
    (fresh_audio.conversion_elements = [] ∧ fresh_audio.raw = false
      ∧ is_raw_caps (peer_current_caps raw_audio_peer) = true
      ∧ (failing_builder.run [] (builder_input fresh_audio)).1 = false
      ∧ (failing_builder.run [] (builder_input fresh_audio)).2.conversion_elements = []
      ∧ (pad_blocked_cb [] failing_builder raw_audio_peer true fresh_audio).identity = none
      ∧ passthrough_children
          (pad_blocked_cb [] failing_builder raw_audio_peer true fresh_audio) = []
      ∧ (pad_blocked_cb [] failing_builder raw_audio_peer true fresh_audio).sink_target = none
      ∧ (pad_blocked_cb [] failing_builder raw_audio_peer true fresh_audio).src_target = none)
    ∧ (idle_encoded.conversion_elements = [] ∧ idle_encoded.raw = false
      ∧ idle_encoded.identity = some ⟨0, "identity", "identity"⟩
      ∧ (failing_builder.run ["identity"] (builder_input idle_encoded)).1 = false
      ∧ (failing_builder.run ["identity"] (builder_input idle_encoded)).2.conversion_elements
          = []
      ∧ passthrough_children
          (pad_blocked_cb ["identity"] failing_builder raw_audio_peer true idle_encoded)
          = [⟨0, "identity", "identity"⟩, ⟨1, "identity", "identity"⟩]) := by
  decide

/-- C6, witness: a fresh audio container, raw audio at the peer, a builder whose only
factory is missing, and a registry that has `identity`. -/
theorem pad_blocked_cb_fallback_identity_witness :
    ∃ el : Element, el.factory = "identity"
      ∧ (pad_blocked_cb ["identity"] failing_builder raw_audio_peer true fresh_audio).identity
          = some el
      ∧ passthrough_children
          (pad_blocked_cb ["identity"] failing_builder raw_audio_peer true fresh_audio) = [el]
      ∧ (pad_blocked_cb ["identity"] failing_builder raw_audio_peer true
          fresh_audio).conversion_elements = []
      ∧ (pad_blocked_cb ["identity"] failing_builder raw_audio_peer true fresh_audio).children
          = fresh_audio.children ++ [el]
      ∧ (pad_blocked_cb ["identity"] failing_builder raw_audio_peer true fresh_audio).sink_target
          = some (.static el "sink")
      ∧ (pad_blocked_cb ["identity"] failing_builder raw_audio_peer true fresh_audio).src_target
          = some (.static el "src")
      ∧ (new_log fresh_audio (pad_blocked_cb ["identity"] failing_builder raw_audio_peer true
          fresh_audio)).count .element_error = 1
      ∧ (new_log fresh_audio (pad_blocked_cb ["identity"] failing_builder raw_audio_peer true
          fresh_audio)).count (.set_blocked_async .sink_proxypad false) = 1
      ∧ (pad_blocked_cb ["identity"] failing_builder raw_audio_peer true
          fresh_audio).pad_is_blocked = false :=
  pad_blocked_cb_fallback_identity ["identity"] failing_builder raw_audio_peer fresh_audio
    (by decide) (by decide) (by decide) (by decide) (by decide) (by decide) (by decide)

/-- C7, the failing input evaluated: on a fresh audio container, which holds no
pass-through node, the builder appends an `audioconvert` and then reports failure. The
chain is not empty, and yet the fallback has made a pass-through node and added it to the
bin; both ghost pads are targeted at the converter of the partial chain, so the new
pass-through node is a target of neither. -/
theorem pad_blocked_cb_partial_failure_creates_identity :
    fresh_audio.identity = none
      ∧ (failing_builder.run ["audioconvert", "identity"] (builder_input fresh_audio)).1 = false
      ∧ (pad_blocked_cb ["audioconvert", "identity"] failing_builder raw_audio_peer true
          fresh_audio).conversion_elements = [⟨0, "audioconvert", "conv"⟩]
      ∧ (pad_blocked_cb ["audioconvert", "identity"] failing_builder raw_audio_peer true
          fresh_audio).identity = some ⟨1, "identity", "identity"⟩
      ∧ Action.bin_add ⟨1, "identity", "identity"⟩ ∈
          new_log fresh_audio (pad_blocked_cb ["audioconvert", "identity"] failing_builder
            raw_audio_peer true fresh_audio)
      ∧ (pad_blocked_cb ["audioconvert", "identity"] failing_builder raw_audio_peer true
          fresh_audio).children
          = [⟨0, "audioconvert", "conv"⟩, ⟨1, "identity", "identity"⟩]
      ∧ (pad_blocked_cb ["audioconvert", "identity"] failing_builder raw_audio_peer true
          fresh_audio).sink_target = some (.static ⟨0, "audioconvert", "conv"⟩ "sink")
      ∧ (pad_blocked_cb ["audioconvert", "identity"] failing_builder raw_audio_peer true
          fresh_audio).src_target = some (.static ⟨0, "audioconvert", "conv"⟩ "src") := by
  decide

/-- What the label `link_failed` does to a partial chain, for every input: the chain is
left as the builder left it, the ghost pads get the sink pad of its first and the src pad
of its last element, and `add_identity` is called all the same. -/
theorem pad_blocked_cb_partial_failure (reg : Registry) (builder : Builder) (peer : PeerPad)
    (s : GstPlaySinkConvertBin)
    (hclass : is_raw_caps (peer_current_caps peer) = true) (hstored : s.raw = false)
    (hfail : (builder.run reg (builder_input s)).1 = false)
    (hsome : (builder.run reg (builder_input s)).2.conversion_elements ≠ []) :
    (pad_blocked_cb reg builder peer true s).conversion_elements
        = (builder.run reg (builder_input s)).2.conversion_elements
      ∧ (pad_blocked_cb reg builder peer true s).sink_target
          = (builder.run reg (builder_input s)).2.conversion_elements.head?.map
              (fun el => Pad.static el "sink")
      ∧ (pad_blocked_cb reg builder peer true s).src_target
          = (builder.run reg (builder_input s)).2.conversion_elements.getLast?.map
              (fun el => Pad.static el "src")
      ∧ (pad_blocked_cb reg builder peer true s).sink_target ≠ none
      ∧ (pad_blocked_cb reg builder peer true s).src_target ≠ none
      ∧ ("identity" ∈ reg →
          (pad_blocked_cb reg builder peer true s).identity
              = some ⟨(builder.run reg (builder_input s)).2.next_id, "identity", "identity"⟩
            ∧ Action.bin_add ⟨(builder.run reg (builder_input s)).2.next_id, "identity",
                "identity"⟩ ∈ new_log s (pad_blocked_cb reg builder peer true s)) := by
  have hfr := Builder.run_frame reg builder (builder_input s)
  obtain ⟨extra, hlog, -⟩ := hfr.logged
  obtain ⟨-, -, -, -, hbl⟩ := builder_input_fields s
  rw [pad_blocked_cb_to_raw reg builder peer s hclass hstored]
  generalize builder.run reg (builder_input s) = r at *
  obtain ⟨ok, t⟩ := r
  simp only at hfail hsome hlog
  subst hfail
  rw [hbl] at hlog
  have hhead : t.conversion_elements.head? ≠ none := by
    simpa [List.head?_eq_none_iff] using hsome
  have hlast : t.conversion_elements.getLast? ≠ none := by
    simpa [List.getLast?_eq_none_iff] using hsome
  by_cases hreg : "identity" ∈ reg
  · simp only [pad_blocked_cb_link_failed, emit, add_identity_found _ _ hreg, set_targets_eq,
      gst_pad_set_blocked_async_full, hlog, new_log, gst_element_get_static_pad, hsome,
      if_false]
    refine ⟨trivial, trivial, trivial, ?_, ?_, fun _ => ⟨trivial, ?_⟩⟩
    · simpa using hhead
    · simpa using hlast
    · simp
  · simp only [pad_blocked_cb_link_failed, emit, add_identity_missing _ _ hreg, set_targets_eq,
      gst_pad_set_blocked_async_full, hlog, new_log, gst_element_get_static_pad, hsome,
      if_false]
    refine ⟨trivial, trivial, trivial, ?_, ?_, fun h => absurd h hreg⟩
    · simpa using hhead
    · simpa using hlast

/-- An instance of the lemma above: a fresh audio container, raw audio at the peer, a
registry with `audioconvert` and `identity`, and the builder that appends an
`audioconvert` and fails. -/
theorem pad_blocked_cb_partial_failure_witness :
    (pad_blocked_cb ["audioconvert", "identity"] failing_builder raw_audio_peer true
        fresh_audio).sink_target ≠ none
      ∧ (pad_blocked_cb ["audioconvert", "identity"] failing_builder raw_audio_peer true
        fresh_audio).src_target ≠ none :=
  ⟨(pad_blocked_cb_partial_failure ["audioconvert", "identity"] failing_builder raw_audio_peer
      fresh_audio (by decide) (by decide) (by decide) (by decide)).2.2.2.1,
    (pad_blocked_cb_partial_failure ["audioconvert", "identity"] failing_builder raw_audio_peer
      fresh_audio (by decide) (by decide) (by decide) (by decide)).2.2.2.2.1⟩

/-! ## Block confirmation -/

/-- C1, the failing inputs evaluated. First: in `idle_encoded` both ghost pads are targeted
at the pass-through node; the handler is told raw audio (it requests a block and unsets both
targets), the format flips back to encoded, and the block is confirmed. The callback
re-derives the stored class, takes the `unblock` path, requests the unblock, and returns
with both ghost pads without target, although the container holds a pass-through node and
the chain is empty. Second: on a fresh container brought to PAUSED the first confirmation
finds encoded audio, which is the stored class, and the ghost pads, never targeted so far,
stay without target. -/
theorem pad_blocked_cb_same_class_leaves_targets_unset :
    (idle_encoded.sink_target = some (.static ⟨0, "identity", "identity"⟩ "sink")
      ∧ idle_encoded.src_target = some (.static ⟨0, "identity", "identity"⟩ "src")
      ∧ flipped_back.sink_target = none ∧ flipped_back.src_target = none
      ∧ is_raw_caps (peer_current_caps encoded_audio_peer) = flipped_back.raw
      ∧ (pad_blocked_cb ["identity"] empty_builder encoded_audio_peer true
          flipped_back).conversion_elements = []
      ∧ (pad_blocked_cb ["identity"] empty_builder encoded_audio_peer true
          flipped_back).identity = some ⟨0, "identity", "identity"⟩
      ∧ (pad_blocked_cb ["identity"] empty_builder encoded_audio_peer true
          flipped_back).sink_target = none
      ∧ (pad_blocked_cb ["identity"] empty_builder encoded_audio_peer true
          flipped_back).src_target = none
      ∧ new_log flipped_back (pad_blocked_cb ["identity"] empty_builder encoded_audio_peer true
          flipped_back) = [.lock, .set_blocked_async .sink_proxypad false, .unlock])
    ∧ ((pad_blocked_cb ["identity"] empty_builder encoded_audio_peer true
          fresh_paused).sink_target = none
      ∧ (pad_blocked_cb ["identity"] empty_builder encoded_audio_peer true
          fresh_paused).src_target = none
      ∧ new_log fresh_paused (pad_blocked_cb ["identity"] empty_builder encoded_audio_peer true
          fresh_paused) = [.lock, .set_blocked_async .sink_proxypad false, .unlock]) := by
  decide

/-- C8, the failing input evaluated: from `idle_encoded` a block is confirmed with raw audio
at the peer and the builder appends an `audioconvert` and then reports failure. When the
unblock is requested both ghost pads are targeted at that converter, which was attached
during this run, and the log of the whole run holds neither a
`gst_element_sync_state_with_parent` of it nor any event sent to its sink pad. -/
theorem pad_blocked_cb_partial_chain_never_synced :
    (pad_blocked_cb ["audioconvert", "identity"] failing_builder raw_audio_peer true
        idle_encoded).conversion_elements = [⟨1, "audioconvert", "conv"⟩]
      ∧ Action.bin_add ⟨1, "audioconvert", "conv"⟩ ∈
          new_log idle_encoded (pad_blocked_cb ["audioconvert", "identity"] failing_builder
            raw_audio_peer true idle_encoded)
      ∧ (pad_blocked_cb ["audioconvert", "identity"] failing_builder raw_audio_peer true
        idle_encoded).sink_target = some (.static ⟨1, "audioconvert", "conv"⟩ "sink")
      ∧ (pad_blocked_cb ["audioconvert", "identity"] failing_builder raw_audio_peer true
        idle_encoded).src_target = some (.static ⟨1, "audioconvert", "conv"⟩ "src")
      ∧ Action.set_blocked_async .sink_proxypad false ∈
          new_log idle_encoded (pad_blocked_cb ["audioconvert", "identity"] failing_builder
            raw_audio_peer true idle_encoded)
      ∧ (pad_blocked_cb ["audioconvert", "identity"] failing_builder raw_audio_peer true
        idle_encoded).log.any (is_sync_of ⟨1, "audioconvert", "conv"⟩) = false
      ∧ (pad_blocked_cb ["audioconvert", "identity"] failing_builder raw_audio_peer true
        idle_encoded).log.any (is_event_for ⟨1, "audioconvert", "conv"⟩) = false := by
  decide

theorem pad_blocked_cb_to_encoded (reg : Registry) (builder : Builder) (peer : PeerPad)
    (s : GstPlaySinkConvertBin) (hclass : is_raw_caps (peer_current_caps peer) = false)
    (hstored : s.raw = true) :
    pad_blocked_cb reg builder peer true s
      = pad_blocked_cb_retarget reg (clear_conversion_elements
          (set_src_target none (set_sink_target none
            { emit .lock s with sink_proxypad_blocked := true, raw := false }))) := by
  simp [pad_blocked_cb, emit, hclass, hstored]

theorem pad_blocked_cb_link_failed_raw (reg : Registry) (t : GstPlaySinkConvertBin) :
    (pad_blocked_cb_link_failed reg t).raw = t.raw := by
  by_cases hreg : "identity" ∈ reg
  · simp [pad_blocked_cb_link_failed, emit, add_identity_found _ _ hreg, set_targets_eq,
      gst_pad_set_blocked_async_full]
  · simp [pad_blocked_cb_link_failed, emit, add_identity_missing _ _ hreg, set_targets_eq,
      gst_pad_set_blocked_async_full]

theorem pad_blocked_cb_retarget_raw (reg : Registry) (t : GstPlaySinkConvertBin) :
    (pad_blocked_cb_retarget reg t).raw = t.raw := by
  by_cases hreg : "identity" ∈ reg <;> by_cases hc : t.conversion_elements = []
  · simp [pad_blocked_cb_retarget, hc, add_identity_found _ _ hreg, set_targets_eq,
      pad_blocked_cb_unblock_eq]
  · simp [pad_blocked_cb_retarget, hc, set_targets_eq, pad_blocked_cb_unblock_eq]
  · simp [pad_blocked_cb_retarget, hc, add_identity_missing _ _ hreg, set_targets_eq,
      pad_blocked_cb_unblock_eq]
  · simp [pad_blocked_cb_retarget, hc, set_targets_eq, pad_blocked_cb_unblock_eq]

theorem clear_conversion_elements_raw (t : GstPlaySinkConvertBin) :
    (clear_conversion_elements t).raw = t.raw := by
  unfold clear_conversion_elements
  split
  · exact g_list_foreach_keeps (fun x => x.raw) gst_play_sink_convert_bin_remove_element
      (fun el s => by simp [remove_element_eq]) _ t
  · rfl

theorem pad_blocked_cb_link_failed_targets (reg : Registry) (t : GstPlaySinkConvertBin)
    (hreg : "identity" ∈ reg) :
    targets_follow_chain (pad_blocked_cb_link_failed reg t)
      ∧ (pad_blocked_cb_link_failed reg t).sink_target ≠ none
      ∧ (pad_blocked_cb_link_failed reg t).src_target ≠ none := by
  by_cases hc : t.conversion_elements = []
  · simp [targets_follow_chain, pad_blocked_cb_link_failed, emit, add_identity_found _ _ hreg,
      set_targets_eq, gst_pad_set_blocked_async_full, hc, gst_element_get_static_pad]
  · have hhead : t.conversion_elements.head? ≠ none := by
      simpa [List.head?_eq_none_iff] using hc
    have hlast : t.conversion_elements.getLast? ≠ none := by
      simpa [List.getLast?_eq_none_iff] using hc
    simp only [targets_follow_chain, pad_blocked_cb_link_failed, emit,
      add_identity_found _ _ hreg, set_targets_eq, gst_pad_set_blocked_async_full, hc,
      gst_element_get_static_pad, if_false]
    refine ⟨⟨trivial, trivial⟩, ?_, ?_⟩
    · simpa using hhead
    · simpa using hlast

theorem pad_blocked_cb_retarget_targets (reg : Registry) (t : GstPlaySinkConvertBin)
    (hreg : "identity" ∈ reg) :
    targets_follow_chain (pad_blocked_cb_retarget reg t)
      ∧ (pad_blocked_cb_retarget reg t).sink_target ≠ none
      ∧ (pad_blocked_cb_retarget reg t).src_target ≠ none := by
  by_cases hc : t.conversion_elements = []
  · simp [targets_follow_chain, pad_blocked_cb_retarget, emit, add_identity_found _ _ hreg,
      set_targets_eq, pad_blocked_cb_unblock_eq, hc, gst_element_get_static_pad]
  · have hhead : t.conversion_elements.head? ≠ none := by
      simpa [List.head?_eq_none_iff] using hc
    have hlast : t.conversion_elements.getLast? ≠ none := by
      simpa [List.getLast?_eq_none_iff] using hc
    simp only [targets_follow_chain, pad_blocked_cb_retarget, emit, set_targets_eq,
      pad_blocked_cb_unblock_eq, hc, gst_element_get_static_pad, if_false]
    refine ⟨⟨trivial, trivial⟩, ?_, ?_⟩
    · simpa using hhead
    · simpa using hlast

/-- On every path of a block confirmation on which the re-derived class differs from the
stored one, and with an identity factory that resolves, both ghost pads end with a target:
the head and tail of the chain, or the pass-through node when the chain is empty. -/
theorem pad_blocked_cb_changed_class_retargets (reg : Registry) (builder : Builder)
    (peer : PeerPad) (s : GstPlaySinkConvertBin)
    (hclass : is_raw_caps (peer_current_caps peer) ≠ s.raw) (hreg : "identity" ∈ reg) :
    targets_follow_chain (pad_blocked_cb reg builder peer true s)
      ∧ (pad_blocked_cb reg builder peer true s).sink_target ≠ none
      ∧ (pad_blocked_cb reg builder peer true s).src_target ≠ none := by
  cases hc : is_raw_caps (peer_current_caps peer)
  · have hs : s.raw = true := by
      cases hr : s.raw
      · exact absurd (hc.trans hr.symm) hclass
      · rfl
    rw [pad_blocked_cb_to_encoded reg builder peer s hc hs]
    exact pad_blocked_cb_retarget_targets reg _ hreg
  · have hs : s.raw = false := by
      cases hr : s.raw
      · rfl
      · exact absurd (hc.trans hr.symm) hclass
    rw [pad_blocked_cb_to_raw reg builder peer s hc hs]
    generalize builder.run reg (builder_input s) = r
    obtain ⟨ok, t⟩ := r
    cases ok
    · exact pad_blocked_cb_link_failed_targets reg t hreg
    · exact pad_blocked_cb_retarget_targets reg _ hreg

/-- The stored flag after a confirmation, through the caps selection of lines 197-201. -/
theorem pad_blocked_cb_raw_after (reg : Registry) (builder : Builder) (peer : PeerPad)
    (s : GstPlaySinkConvertBin) :
    (is_raw_caps (peer_current_caps peer) = s.raw →
        (pad_blocked_cb reg builder peer true s).conversion_elements = s.conversion_elements
          ∧ (pad_blocked_cb reg builder peer true s).identity = s.identity
          ∧ (pad_blocked_cb reg builder peer true s).children = s.children
          ∧ (pad_blocked_cb reg builder peer true s).raw = s.raw
          ∧ (pad_blocked_cb reg builder peer true s).sink_target = s.sink_target
          ∧ (pad_blocked_cb reg builder peer true s).src_target = s.src_target
          ∧ new_log s (pad_blocked_cb reg builder peer true s)
              = [.lock, .set_blocked_async .sink_proxypad false, .unlock])
      ∧ (pad_blocked_cb reg builder peer true s).raw = is_raw_caps (peer_current_caps peer) := by
  refine ⟨fun h => ?_, ?_⟩
  · rw [pad_blocked_cb_same_class reg builder peer s h]
    simp [new_log]
  · by_cases h : is_raw_caps (peer_current_caps peer) = s.raw
    · rw [pad_blocked_cb_same_class reg builder peer s h]
      exact h.symm
    · cases hc : is_raw_caps (peer_current_caps peer)
      · have hs : s.raw = true := by
          cases hr : s.raw
          · exact absurd (hc.trans hr.symm) h
          · rfl
        rw [pad_blocked_cb_to_encoded reg builder peer s hc hs, pad_blocked_cb_retarget_raw,
          clear_conversion_elements_raw]
        simp [set_src_target, set_sink_target, emit]
      · have hs : s.raw = false := by
          cases hr : s.raw
          · rfl
          · exact absurd (hc.trans hr.symm) h
        have hfr := Builder.run_frame reg builder (builder_input s)
        have hraw := hfr.raw
        rw [pad_blocked_cb_to_raw reg builder peer s hc hs]
        generalize builder.run reg (builder_input s) = r at *
        obtain ⟨ok, t⟩ := r
        simp only at hraw
        rw [(builder_input_fields s).2.2.2.1] at hraw
        cases ok
        · simp only
          rw [pad_blocked_cb_link_failed_raw, hraw]
        · simp only
          rw [pad_blocked_cb_retarget_raw]
          split
          · rw [g_list_foreach_keeps (fun x => x.raw) gst_play_sink_convert_bin_on_element_added
              (fun el s => by simp [on_element_added_eq]) _ t, hraw]
          · exact hraw

theorem peer_current_caps_negotiated (peer : PeerPad) (caps : GstCaps)
    (h : peer.negotiated_caps = some caps) : peer_current_caps peer = caps := by
  simp [peer_current_caps, h]

theorem peer_current_caps_declared (peer : PeerPad) (h : peer.negotiated_caps = none) :
    peer_current_caps peer = peer.caps := by
  simp [peer_current_caps, h]

/-- C10: the peer's current format is its negotiated caps, and what the peer declares
(`gst_pad_get_caps_reffed`) only when it has no negotiated caps. When the class
`is_raw_caps` gives that format equals the stored raw flag, the block-confirmation
callback leaves the conversion chain, the pass-through node, the bin's children, the
stored raw flag and both ghost pad targets as they were, and the only framework calls it
makes are taking the lock, the request to unblock the proxy pad, and releasing the lock;
and after every confirmation, whichever path it took, the stored raw flag equals the class
of that format. -/
theorem pad_blocked_cb_stored_class (reg : Registry) (builder : Builder) (peer : PeerPad)
    (s : GstPlaySinkConvertBin) :
    (∀ negotiated, peer.negotiated_caps = some negotiated →
        (is_raw_caps negotiated = s.raw →
          (pad_blocked_cb reg builder peer true s).conversion_elements = s.conversion_elements
            ∧ (pad_blocked_cb reg builder peer true s).identity = s.identity
            ∧ (pad_blocked_cb reg builder peer true s).children = s.children
            ∧ (pad_blocked_cb reg builder peer true s).raw = s.raw
            ∧ (pad_blocked_cb reg builder peer true s).sink_target = s.sink_target
            ∧ (pad_blocked_cb reg builder peer true s).src_target = s.src_target
            ∧ new_log s (pad_blocked_cb reg builder peer true s)
                = [.lock, .set_blocked_async .sink_proxypad false, .unlock])
          ∧ (pad_blocked_cb reg builder peer true s).raw = is_raw_caps negotiated)
      ∧ (peer.negotiated_caps = none →
        (is_raw_caps peer.caps = s.raw →
          (pad_blocked_cb reg builder peer true s).conversion_elements = s.conversion_elements
            ∧ (pad_blocked_cb reg builder peer true s).identity = s.identity
            ∧ (pad_blocked_cb reg builder peer true s).children = s.children
            ∧ (pad_blocked_cb reg builder peer true s).raw = s.raw
            ∧ (pad_blocked_cb reg builder peer true s).sink_target = s.sink_target
            ∧ (pad_blocked_cb reg builder peer true s).src_target = s.src_target
            ∧ new_log s (pad_blocked_cb reg builder peer true s)
                = [.lock, .set_blocked_async .sink_proxypad false, .unlock])
          ∧ (pad_blocked_cb reg builder peer true s).raw = is_raw_caps peer.caps) := by
  have h := pad_blocked_cb_raw_after reg builder peer s
  constructor
  · intro negotiated hn
    rw [peer_current_caps_negotiated peer negotiated hn] at h
    exact h
  · intro hn
    rw [peer_current_caps_declared peer hn] at h
    exact h

/-- C10, witness: two confirmations at `flipped_back`, whose stored class is not-raw. With
a peer that declares raw audio and has negotiated encoded audio, the class of the
negotiated caps equals the stored one and the callback leaves the chain alone and the flag
not-raw. With a peer that has no negotiated caps and declares raw audio, the flag becomes
raw. -/
theorem pad_blocked_cb_stored_class_witness :
    is_raw_caps renegotiated_peer.caps = true
      ∧ (pad_blocked_cb ["identity"] empty_builder renegotiated_peer true
          flipped_back).conversion_elements = flipped_back.conversion_elements
      ∧ (pad_blocked_cb ["identity"] empty_builder renegotiated_peer true flipped_back).raw
          = false
      ∧ (pad_blocked_cb ["identity"] empty_builder unnegotiated_raw_peer true
          flipped_back).raw = true :=
  ⟨by decide,
    (((pad_blocked_cb_stored_class ["identity"] empty_builder renegotiated_peer
      flipped_back).1 (caps_of_names ["audio/mpeg"]) rfl).1 (by decide)).1,
    ((pad_blocked_cb_stored_class ["identity"] empty_builder renegotiated_peer
      flipped_back).1 (caps_of_names ["audio/mpeg"]) rfl).2,
    ((pad_blocked_cb_stored_class ["identity"] empty_builder unnegotiated_raw_peer
      flipped_back).2 rfl).2⟩

/-! ## Shutdown -/

theorem clear_conversion_elements_chain (t : GstPlaySinkConvertBin) :
    (clear_conversion_elements t).conversion_elements = [] := by
  unfold clear_conversion_elements
  split
  · rfl
  · rename_i h
    simpa using h

theorem clear_conversion_elements_identity (t : GstPlaySinkConvertBin) :
    (clear_conversion_elements t).identity = t.identity := by
  unfold clear_conversion_elements
  split
  · exact g_list_foreach_keeps (fun x => x.identity) gst_play_sink_convert_bin_remove_element
      (fun el s => by simp [remove_element_eq]) _ t
  · rfl

theorem clear_conversion_elements_segment (t : GstPlaySinkConvertBin) :
    (clear_conversion_elements t).segment = t.segment := by
  unfold clear_conversion_elements
  split
  · exact g_list_foreach_keeps (fun x => x.segment) gst_play_sink_convert_bin_remove_element
      (fun el s => by simp [remove_element_eq]) _ t
  · rfl

theorem clear_conversion_elements_next_id (t : GstPlaySinkConvertBin) :
    (clear_conversion_elements t).next_id = t.next_id := by
  unfold clear_conversion_elements
  split
  · exact g_list_foreach_keeps (fun x => x.next_id) gst_play_sink_convert_bin_remove_element
      (fun el s => by simp [remove_element_eq]) _ t
  · rfl

theorem clear_conversion_elements_log_grows (t : GstPlaySinkConvertBin) :
    t.log <+: (clear_conversion_elements t).log := by
  unfold clear_conversion_elements
  split
  · exact g_list_foreach_log_grows gst_play_sink_convert_bin_remove_element
      (fun el s => by simp [remove_element_eq]) _ t
  · exact List.prefix_refl _

theorem change_state_before_parent_log (s : GstPlaySinkConvertBin) :
    (change_state_before_parent .paused_to_ready s).log
      = s.log ++ (.lock :: ((if s.pad_is_blocked = true
          then [Action.set_blocked_async .sink_proxypad false] else []) ++ [.unlock])) := by
  cases h : s.pad_is_blocked <;>
    simp [change_state_before_parent, emit, gst_pad_set_blocked_async_full, h]

theorem change_state_before_parent_identity (s : GstPlaySinkConvertBin) :
    (change_state_before_parent .paused_to_ready s).identity = s.identity := by
  cases h : s.pad_is_blocked <;>
    simp [change_state_before_parent, emit, gst_pad_set_blocked_async_full, h]

/-- The PAUSED to READY case of the second switch, on a container `t`. -/
theorem change_state_after_parent_paused_to_ready (reg : Registry)
    (t : GstPlaySinkConvertBin) :
    (change_state_after_parent reg .paused_to_ready t).conversion_elements = []
      ∧ (change_state_after_parent reg .paused_to_ready t).segment = gst_segment_init .undefined
      ∧ (change_state_after_parent reg .paused_to_ready t).raw = false
      ∧ (∀ el, t.identity = some el →
          (change_state_after_parent reg .paused_to_ready t).identity = some el)
      ∧ (t.identity = none → "identity" ∈ reg →
          (change_state_after_parent reg .paused_to_ready t).identity
            = some ⟨t.next_id, "identity", "identity"⟩)
      ∧ (change_state_after_parent reg .paused_to_ready t).sink_target
          = (change_state_after_parent reg .paused_to_ready t).identity.map
              (fun el => Pad.static el "sink")
      ∧ (change_state_after_parent reg .paused_to_ready t).src_target
          = (change_state_after_parent reg .paused_to_ready t).identity.map
              (fun el => Pad.static el "src")
      ∧ t.log <+: (change_state_after_parent reg .paused_to_ready t).log := by
  have e : change_state_after_parent reg .paused_to_ready t
      = emit .unlock
          { gst_play_sink_convert_bin_set_targets
              (if (clear_conversion_elements
                    { emit .lock t with segment := gst_segment_init .undefined }).identity = none
               then gst_play_sink_convert_bin_add_identity reg (clear_conversion_elements
                    { emit .lock t with segment := gst_segment_init .undefined })
               else clear_conversion_elements
                    { emit .lock t with segment := gst_segment_init .undefined })
            with raw := false } := rfl
  rw [e]
  generalize hu : clear_conversion_elements
    { emit .lock t with segment := gst_segment_init .undefined } = u
  have hc : u.conversion_elements = [] := by
    rw [← hu]; exact clear_conversion_elements_chain _
  have hi : u.identity = t.identity := by
    rw [← hu, clear_conversion_elements_identity]; rfl
  have hseg : u.segment = gst_segment_init .undefined := by
    rw [← hu, clear_conversion_elements_segment]
  have hn : u.next_id = t.next_id := by
    rw [← hu, clear_conversion_elements_next_id]; rfl
  have hl : t.log <+: u.log := by
    rw [← hu]
    have h1 : t.log <+: ({ emit .lock t with
        segment := gst_segment_init .undefined } : GstPlaySinkConvertBin).log :=
      List.prefix_append t.log [Action.lock]
    exact h1.trans (clear_conversion_elements_log_grows _)
  obtain ⟨x, hx⟩ := hl
  cases hid : t.identity with
  | some el =>
    rw [hid] at hi
    simp [hi, hid, set_targets_eq, emit, hc, hseg, gst_element_get_static_pad, ← hx]
  | none =>
    rw [hid] at hi
    by_cases hreg : "identity" ∈ reg
    · simp [hi, hreg, add_identity_found, set_targets_eq, emit, hc, hseg, hn,
        gst_element_get_static_pad, ← hx]
    · simp [hi, hreg, add_identity_missing, set_targets_eq, emit, hc, hseg,
        gst_element_get_static_pad, ← hx]

/-- C9, counterexample: stopping a fresh audio container from PAUSED to READY creates a
pass-through node, and stopping `idle_encoded`, which holds one, keeps it: in both cases
the container holds a pass-through node afterwards. And when the parent class answers
failure, the function returns before its second switch: stopping `running_raw` then leaves
the stored raw flag true. -/
theorem change_state_paused_to_ready_holds_identity :
    fresh_audio.identity = none
      ∧ (gst_play_sink_convert_bin_change_state ["identity"] .success .paused_to_ready
          fresh_audio).2.identity
          = some ⟨0, "identity", "identity"⟩
      ∧ (gst_play_sink_convert_bin_change_state ["identity"] .success .paused_to_ready
          idle_encoded).2.identity
          = some ⟨0, "identity", "identity"⟩
      ∧ (gst_play_sink_convert_bin_change_state ["identity"] .success .paused_to_ready
          idle_encoded).2.identity ≠ none
      ∧ running_raw.raw = true
      ∧ (gst_play_sink_convert_bin_change_state ["identity"] .failure .paused_to_ready
          running_raw).2.raw = true := by
  decide

/-- C9, amended: for every container state, after `change_state` for PAUSED to READY in
which the parent class does not answer failure, the conversion chain is empty,
TimelineState is reset to the undefined format, the stored raw flag is false, a release of
the block was requested if the inbound proxy pad was blocked, and the pass-through node is
kept rather than destroyed: a node the container held is still held, a container that
held none gets a new one when the identity factory resolves, and both ghost pads are
targeted at the sink and src pads of the node the container holds. -/
theorem change_state_paused_to_ready (reg : Registry) (parent_ret : GstStateChangeReturn)
    (s : GstPlaySinkConvertBin) (hparent : parent_ret ≠ .failure) :
    (gst_play_sink_convert_bin_change_state reg parent_ret .paused_to_ready
        s).2.conversion_elements = []
      ∧ (gst_play_sink_convert_bin_change_state reg parent_ret .paused_to_ready s).2.segment
          = gst_segment_init .undefined
      ∧ (gst_play_sink_convert_bin_change_state reg parent_ret .paused_to_ready s).2.raw = false
      ∧ (s.pad_is_blocked = true → Action.set_blocked_async .sink_proxypad false ∈
          new_log s (gst_play_sink_convert_bin_change_state reg parent_ret .paused_to_ready s).2)
      ∧ (∀ el, s.identity = some el →
          (gst_play_sink_convert_bin_change_state reg parent_ret .paused_to_ready s).2.identity
              = some el)
      ∧ (s.identity = none → "identity" ∈ reg →
          ∃ el : Element, el.factory = "identity"
            ∧ (gst_play_sink_convert_bin_change_state reg parent_ret .paused_to_ready s).2.identity
                = some el)
      ∧ (gst_play_sink_convert_bin_change_state reg parent_ret .paused_to_ready s).2.sink_target
          = (gst_play_sink_convert_bin_change_state reg parent_ret .paused_to_ready
              s).2.identity.map
              (fun el => Pad.static el "sink")
      ∧ (gst_play_sink_convert_bin_change_state reg parent_ret .paused_to_ready s).2.src_target
          = (gst_play_sink_convert_bin_change_state reg parent_ret .paused_to_ready
              s).2.identity.map
              (fun el => Pad.static el "src") := by
  have e : (gst_play_sink_convert_bin_change_state reg parent_ret .paused_to_ready s).2
      = change_state_after_parent reg .paused_to_ready
          (emit (.parent_change_state .paused_to_ready)
            (change_state_before_parent .paused_to_ready s)) := by
    simp [gst_play_sink_convert_bin_change_state, hparent]
  rw [e]
  generalize ht : emit (.parent_change_state .paused_to_ready)
    (change_state_before_parent .paused_to_ready s) = t
  have hid : t.identity = s.identity := by
    rw [← ht]; exact change_state_before_parent_identity s
  have hlog : t.log = s.log ++ (.lock :: ((if s.pad_is_blocked = true
      then [Action.set_blocked_async .sink_proxypad false] else []) ++ [.unlock]))
      ++ [.parent_change_state .paused_to_ready] := by
    rw [← ht]; simp only [emit]; rw [change_state_before_parent_log]
  obtain ⟨h1, h2, h3, h4, h5, h6, h7, x, hx⟩ :=
    change_state_after_parent_paused_to_ready reg t
  refine ⟨h1, h2, h3, ?_, ?_, ?_, h6, h7⟩
  · intro hb
    rw [new_log, ← hx, hlog]
    simp [hb]
  · intro el hel
    exact h4 el (hid.trans hel)
  · intro hnone hreg
    exact ⟨_, rfl, h5 (hid.trans hnone) hreg⟩

/-- C9, witness: `idle_encoded` is stopped while a block is pending; the parent class
answers success. -/
theorem change_state_paused_to_ready_witness :
    (gst_play_sink_convert_bin_change_state ["identity"] .success .paused_to_ready
        (gst_play_sink_convert_bin_change_state ["identity"] .success .ready_to_paused
            idle_encoded).2).2.conversion_elements
        = []
      ∧ (gst_play_sink_convert_bin_change_state ["identity"] .success .paused_to_ready
        (gst_play_sink_convert_bin_change_state ["identity"] .success .ready_to_paused
            idle_encoded).2).2.raw = false
      ∧ Action.set_blocked_async .sink_proxypad false ∈
          new_log (gst_play_sink_convert_bin_change_state ["identity"] .success .ready_to_paused
              idle_encoded).2
            (gst_play_sink_convert_bin_change_state ["identity"] .success .paused_to_ready
              (gst_play_sink_convert_bin_change_state ["identity"] .success .ready_to_paused
                  idle_encoded).2).2 :=
  ⟨(change_state_paused_to_ready ["identity"] .success
      (gst_play_sink_convert_bin_change_state ["identity"] .success .ready_to_paused
          idle_encoded).2 (by decide)).1,
    (change_state_paused_to_ready ["identity"] .success
      (gst_play_sink_convert_bin_change_state ["identity"] .success .ready_to_paused
          idle_encoded).2 (by decide)).2.2.1,
    (change_state_paused_to_ready ["identity"] .success
      (gst_play_sink_convert_bin_change_state ["identity"] .success .ready_to_paused
          idle_encoded).2 (by decide)).2.2.2.1
      (by decide)⟩

/-! ## Timeline replay -/

/-- C12: for every segment and node, `distribute_running_time` sends to the node's sink
pad, when the accumulated offset is non-zero, exactly two non-update new-segment events,
first the boundary event (start 0, stop the accumulated offset, time 0), then the current
event (start, stop and time of the segment), both with the segment's rate, applied rate
and format; when the accumulated offset is zero, exactly the current event. It makes no
other framework call and changes nothing else of the container. -/
theorem distribute_running_time_events (element : Element) (segment : GstSegment)
    (s : GstPlaySinkConvertBin) :
    (segment.accum ≠ 0 →
        new_log s (distribute_running_time element segment s)
          = [.send_event (.static element "sink")
                (.new_segment_full false segment.rate segment.applied_rate segment.format
                  0 segment.accum 0),
             .send_event (.static element "sink")
                (.new_segment_full false segment.rate segment.applied_rate segment.format
                  segment.start segment.stop segment.time)])
      ∧ (segment.accum = 0 →
        new_log s (distribute_running_time element segment s)
          = [.send_event (.static element "sink")
                (.new_segment_full false segment.rate segment.applied_rate segment.format
                  segment.start segment.stop segment.time)])
      ∧ (distribute_running_time element segment s).log
          = s.log ++ new_log s (distribute_running_time element segment s)
      ∧ { distribute_running_time element segment s with log := s.log } = s := by
  rw [distribute_running_time_eq]
  by_cases h : segment.accum = 0 <;> simp [new_log, running_time_actions, h]

/-! ## The exported chain operation -/

/-- C15: for every factory name, if the factory lookup fails,
`add_conversion_element_factory` returns NULL, posts the missing-element message and the
warning (and makes no other call), and leaves the conversion chain and the bin's children
unchanged; if the lookup succeeds, it returns the new node, made by that factory under the
given name, the chain afterwards is the previous chain with that node appended at the end,
and the node has been added to the bin. -/
theorem add_conversion_element_factory_result (reg : Registry) (factory name : String)
    (s : GstPlaySinkConvertBin) :
    (factory ∉ reg →
        (gst_play_sink_convert_bin_add_conversion_element_factory reg factory name s).1 = none
          ∧ new_log s
              (gst_play_sink_convert_bin_add_conversion_element_factory reg factory name s).2
            = [.post_missing_element factory, .element_warning factory s.audio]
          ∧ (gst_play_sink_convert_bin_add_conversion_element_factory reg factory name
              s).2.conversion_elements = s.conversion_elements
          ∧ (gst_play_sink_convert_bin_add_conversion_element_factory reg factory name
              s).2.children = s.children)
      ∧ (factory ∈ reg →
        ∃ el : Element, el.factory = factory ∧ el.name = name
          ∧ (gst_play_sink_convert_bin_add_conversion_element_factory reg factory name s).1
              = some el
          ∧ (gst_play_sink_convert_bin_add_conversion_element_factory reg factory name
              s).2.conversion_elements = s.conversion_elements ++ [el]
          ∧ (gst_play_sink_convert_bin_add_conversion_element_factory reg factory name
              s).2.children = s.children ++ [el]
          ∧ new_log s
              (gst_play_sink_convert_bin_add_conversion_element_factory reg factory name s).2
            = [.bin_add el]) := by
  constructor
  · intro h
    simp [gst_play_sink_convert_bin_add_conversion_element_factory, gst_element_factory_make,
      h, gst_play_sink_convert_bin_post_missing_element_message, emit, new_log]
  · intro h
    refine ⟨⟨s.next_id, factory, name⟩, rfl, rfl, ?_⟩
    simp [gst_play_sink_convert_bin_add_conversion_element_factory, gst_element_factory_make,
      h, gst_play_sink_convert_bin_add_conversion_element, gst_bin_add, emit, new_log]

/-! ## Confirmation of an unblock -/

/-- C18: for every container state, `pad_blocked_cb` with blocked = FALSE sets the
data-path-blocked flag to false, takes and releases the lock, and changes nothing else:
the stored raw flag, the conversion chain, the pass-through node, both ghost pad targets,
TimelineState, the bin's children and the pad's blocked state are unchanged, and no block
or unblock is requested. -/
theorem pad_blocked_cb_unblocked (reg : Registry) (builder : Builder) (peer : PeerPad)
    (s : GstPlaySinkConvertBin) :
    pad_blocked_cb reg builder peer false s
        = { s with sink_proxypad_blocked := false, log := s.log ++ [.lock, .unlock] }
      ∧ (pad_blocked_cb reg builder peer false s).sink_proxypad_blocked = false
      ∧ (pad_blocked_cb reg builder peer false s).raw = s.raw
      ∧ (pad_blocked_cb reg builder peer false s).conversion_elements = s.conversion_elements
      ∧ (pad_blocked_cb reg builder peer false s).identity = s.identity
      ∧ (pad_blocked_cb reg builder peer false s).sink_target = s.sink_target
      ∧ (pad_blocked_cb reg builder peer false s).src_target = s.src_target
      ∧ (pad_blocked_cb reg builder peer false s).segment = s.segment
      ∧ (∀ a ∈ new_log s (pad_blocked_cb reg builder peer false s),
          is_block_request a = false) := by
  have e : pad_blocked_cb reg builder peer false s
      = { s with sink_proxypad_blocked := false, log := s.log ++ [.lock, .unlock] } := by
    simp [pad_blocked_cb, emit]
  rw [e]
  simp [new_log, is_block_request]

/-! ## The format query relay -/

theorem getcaps_answer_eq (graph : PadGraph) (pad : Pad) (s : GstPlaySinkConvertBin) :
    (gst_play_sink_convert_bin_getcaps graph pad s).1
      = match (getcaps_otherpad graph pad (emit .lock s)).1 with
        | some otherpad =>
          match graph.peer otherpad with
          | some peer => graph.caps peer
          | none => gst_caps_new_any
        | none => gst_caps_new_any := by
  simp only [gst_play_sink_convert_bin_getcaps]
  generalize getcaps_otherpad graph pad (emit .lock s) = r
  obtain ⟨o, t⟩ := r
  cases o with
  | none => rfl
  | some otherpad =>
    simp only
    cases graph.peer otherpad <;> rfl

theorem gst_ghost_pad_get_target_lock (graph : PadGraph) (pad : Pad)
    (s : GstPlaySinkConvertBin) :
    gst_ghost_pad_get_target graph pad (emit .lock s)
      = gst_ghost_pad_get_target graph pad s := by
  cases pad <;> rfl

theorem getcaps_otherpad_lock (graph : PadGraph) (pad : Pad) (s : GstPlaySinkConvertBin) :
    (getcaps_otherpad graph pad (emit .lock s)).1 = (getcaps_otherpad graph pad s).1 := by
  unfold getcaps_otherpad
  rw [gst_ghost_pad_get_target_lock]
  cases gst_ghost_pad_get_target graph pad s with
  | some t => rfl
  | none =>
    simp only
    split
    · rfl
    · split <;> rfl

/-- C13, counterexample: neither ghost pad of the fresh container has a target, and the
internal proxy pad of the sink ghost pad is linked to the pad `other 7`. A query on the
sink ghost pad resolves to the internal proxy pad itself, as a query on the src ghost pad
does, not to the proxy pad's peer, and the answer is the format set of the proxy pad's
peer (raw audio), not that of the peer of the proxy pad's peer (encoded audio). -/
theorem getcaps_sinkpad_resolves_to_proxypad :
    gst_ghost_pad_get_target linked_proxy_graph .sinkpad fresh_audio = none
      ∧ linked_proxy_graph.peer .sink_proxypad = some (.other 7)
      ∧ (getcaps_otherpad linked_proxy_graph .sinkpad fresh_audio).1 = some .sink_proxypad
      ∧ (getcaps_otherpad linked_proxy_graph .sinkpad fresh_audio).1
          ≠ linked_proxy_graph.peer .sink_proxypad
      ∧ (getcaps_otherpad linked_proxy_graph .srcpad fresh_audio).1 = some .sink_proxypad
      ∧ (gst_play_sink_convert_bin_getcaps linked_proxy_graph .sinkpad fresh_audio).1
          = linked_proxy_graph.caps (.other 7)
      ∧ linked_proxy_graph.peer (.other 7) = some .sink_proxypad
      ∧ (gst_play_sink_convert_bin_getcaps linked_proxy_graph .sinkpad fresh_audio).1
          ≠ linked_proxy_graph.caps .sink_proxypad := by
  decide

/-- C13, amended: for a query on an external port, the resolved port is the port's current
target if one is set; if no target is set, a query on the outbound (src) port and a query
on the inbound (sink) port both resolve to the inbound side's internal proxy pad; when the
resolved port has a peer, the answer is the format set of that peer. -/
theorem getcaps_external_port_resolution (graph : PadGraph) (pad : Pad)
    (s : GstPlaySinkConvertBin) (hpad : pad = .sinkpad ∨ pad = .srcpad) :
    (∀ target, gst_ghost_pad_get_target graph pad s = some target →
        (getcaps_otherpad graph pad s).1 = some target)
      ∧ (gst_ghost_pad_get_target graph pad s = none →
        (getcaps_otherpad graph pad s).1 = some .sink_proxypad)
      ∧ (∀ resolved peer, (getcaps_otherpad graph pad s).1 = some resolved →
        graph.peer resolved = some peer →
        (gst_play_sink_convert_bin_getcaps graph pad s).1 = graph.caps peer) := by
  refine ⟨?_, ?_, ?_⟩
  · intro target ht
    simp [getcaps_otherpad, ht]
  · intro ht
    rcases hpad with h | h <;> subst h <;>
      simp [getcaps_otherpad, ht, gst_proxy_pad_get_internal]
  · intro resolved peer hr hp
    rw [getcaps_answer_eq, getcaps_otherpad_lock, hr]
    simp [hp]

/-- C13, witness: a query on the sink ghost pad of the fresh container in the graph whose
proxy pad is linked. -/
theorem getcaps_external_port_resolution_witness :
    (getcaps_otherpad linked_proxy_graph .sinkpad fresh_audio).1 = some .sink_proxypad
      ∧ (gst_play_sink_convert_bin_getcaps linked_proxy_graph .sinkpad fresh_audio).1
          = linked_proxy_graph.caps (.other 7) :=
  ⟨(getcaps_external_port_resolution linked_proxy_graph .sinkpad fresh_audio
      (Or.inl rfl)).2.1 (by decide),
    (getcaps_external_port_resolution linked_proxy_graph .sinkpad fresh_audio
      (Or.inl rfl)).2.2 .sink_proxypad (.other 7) (by decide) (by decide)⟩

/-- C14: the format query handler always answers. For every pad, no port is resolved
exactly when the pad has no target and is neither of the container's two ghost pads; in
that case, and in the case that the resolved port has no peer, `getcaps` returns the ANY
set; in the one remaining case, a resolved port with a peer, it returns the format set of
that peer. The unresolved case is also reported by the two diagnostics. -/
theorem getcaps_any_exactly_when_unresolved_or_unlinked (graph : PadGraph) (pad : Pad)
    (s : GstPlaySinkConvertBin) :
    ((getcaps_otherpad graph pad s).1 = none ↔
        (gst_ghost_pad_get_target graph pad s = none ∧ pad ≠ .sinkpad ∧ pad ≠ .srcpad))
      ∧ ((getcaps_otherpad graph pad s).1 = none →
        (gst_play_sink_convert_bin_getcaps graph pad s).1 = gst_caps_new_any
          ∧ new_log s (gst_play_sink_convert_bin_getcaps graph pad s).2
              = [.lock, .debug_error_not_our_pad pad, .unlock, .debug_warning_no_traverse])
      ∧ (∀ resolved, (getcaps_otherpad graph pad s).1 = some resolved →
        graph.peer resolved = none →
        (gst_play_sink_convert_bin_getcaps graph pad s).1 = gst_caps_new_any)
      ∧ (∀ resolved peer, (getcaps_otherpad graph pad s).1 = some resolved →
        graph.peer resolved = some peer →
        (gst_play_sink_convert_bin_getcaps graph pad s).1 = graph.caps peer) := by
  have hiff : (getcaps_otherpad graph pad s).1 = none ↔
      (gst_ghost_pad_get_target graph pad s = none ∧ pad ≠ .sinkpad ∧ pad ≠ .srcpad) := by
    unfold getcaps_otherpad
    cases ht : gst_ghost_pad_get_target graph pad s with
    | some t => simp
    | none =>
      by_cases h1 : pad = .srcpad
      · simp [h1]
      · by_cases h2 : pad = .sinkpad
        · simp [h2, gst_proxy_pad_get_internal]
        · simp [h1, h2]
  refine ⟨hiff, ?_, ?_, ?_⟩
  · intro hnone
    obtain ⟨ht, h2, h1⟩ := hiff.mp hnone
    have ho : getcaps_otherpad graph pad (emit .lock s)
        = (none, emit (.debug_error_not_our_pad pad) (emit .lock s)) := by
      simp only [getcaps_otherpad, gst_ghost_pad_get_target_lock, ht, h1, h2, if_false]
    simp only [gst_play_sink_convert_bin_getcaps, ho]
    simp [emit, new_log]
  · intro resolved hr hp
    rw [getcaps_answer_eq, getcaps_otherpad_lock, hr]
    simp [hp]
  · intro resolved peer hr hp
    rw [getcaps_answer_eq, getcaps_otherpad_lock, hr]
    simp [hp]

/-! ## One unblock request and one unlock per block confirmation -/

theorem adds_inner_actions.same (s : GstPlaySinkConvertBin) : adds_inner_actions s s :=
  ⟨[], by simp, by simp⟩

theorem adds_inner_actions.followed {s t u : GstPlaySinkConvertBin}
    (h1 : adds_inner_actions s t) (h2 : adds_inner_actions t u) : adds_inner_actions s u := by
  obtain ⟨x1, hx1, hb1⟩ := h1
  obtain ⟨x2, hx2, hb2⟩ := h2
  refine ⟨x1 ++ x2, by rw [hx2, hx1, List.append_assoc], ?_⟩
  intro a ha
  rcases List.mem_append.mp ha with h | h
  · exact hb1 a h
  · exact hb2 a h

theorem is_inner_of_builder_action {a : Action} (h : is_builder_action a = true) :
    is_inner_action a = true := by
  cases a <;> simp_all [is_builder_action, is_inner_action]

theorem Builder.run_adds_inner (reg : Registry) (b : Builder) (s : GstPlaySinkConvertBin) :
    adds_inner_actions s (b.run reg s).2 := by
  obtain ⟨extra, hlog, hall⟩ := (Builder.run_frame reg b s).logged
  exact ⟨extra, hlog, fun a ha => is_inner_of_builder_action (hall a ha)⟩

theorem set_targets_adds_inner (s : GstPlaySinkConvertBin) :
    adds_inner_actions s (gst_play_sink_convert_bin_set_targets s) := by
  rw [set_targets_eq]
  exact ⟨_, rfl, by simp [is_inner_action]⟩

theorem running_time_actions_inner (el : Element) (seg : GstSegment) :
    ∀ a ∈ running_time_actions el seg, is_inner_action a = true := by
  intro a ha
  obtain ⟨ev, hev⟩ := mem_running_time_actions ha
  subst hev
  rfl

theorem add_identity_adds_inner (reg : Registry) (s : GstPlaySinkConvertBin) :
    adds_inner_actions s (gst_play_sink_convert_bin_add_identity reg s) := by
  by_cases hreg : "identity" ∈ reg
  · rw [add_identity_found reg s hreg]
    refine ⟨_, rfl, ?_⟩
    intro a ha
    simp only [List.mem_cons] at ha
    rcases ha with h | h | h
    · subst h; rfl
    · subst h; rfl
    · exact running_time_actions_inner _ _ a h
  · rw [add_identity_missing reg s hreg]
    exact ⟨_, rfl, by simp [is_inner_action]⟩

theorem on_element_added_adds_inner (el : Element) (s : GstPlaySinkConvertBin) :
    adds_inner_actions s (gst_play_sink_convert_bin_on_element_added el s) := by
  rw [on_element_added_eq]
  refine ⟨_, rfl, ?_⟩
  intro a ha
  simp only [List.mem_cons] at ha
  rcases ha with h | h
  · subst h; rfl
  · exact running_time_actions_inner _ _ a h

theorem remove_element_adds_inner (el : Element) (s : GstPlaySinkConvertBin) :
    adds_inner_actions s (gst_play_sink_convert_bin_remove_element el s) := by
  rw [remove_element_eq]
  exact ⟨_, rfl, by simp [is_inner_action]⟩

theorem g_list_foreach_adds_inner
    (func : Element → GstPlaySinkConvertBin → GstPlaySinkConvertBin)
    (hf : ∀ el s, adds_inner_actions s (func el s)) (list : List Element) :
    ∀ s, adds_inner_actions s (g_list_foreach list func s) := by
  induction list with
  | nil => intro s; exact adds_inner_actions.same s
  | cons a l ih =>
    intro s
    simp only [g_list_foreach, List.foldl_cons] at ih ⊢
    exact (hf a s).followed (ih _)

theorem clear_conversion_elements_adds_inner (s : GstPlaySinkConvertBin) :
    adds_inner_actions s (clear_conversion_elements s) := by
  unfold clear_conversion_elements
  split
  · exact g_list_foreach_adds_inner _ remove_element_adds_inner _ s
  · exact adds_inner_actions.same s

/-- The log a run leaves when it ends with the unblock request and the unlock. -/
theorem ends_with_unblock_unlock {t u : GstPlaySinkConvertBin} (h : adds_inner_actions t u) :
    ∃ inner, (emit .unlock (gst_pad_set_blocked_async_full false u)).log
        = t.log ++ (inner ++ [.set_blocked_async .sink_proxypad false, .unlock])
      ∧ ∀ a ∈ inner, is_inner_action a = true := by
  obtain ⟨inner, hlog, hall⟩ := h
  refine ⟨inner, ?_, hall⟩
  simp [emit, gst_pad_set_blocked_async_full, hlog]

theorem pad_blocked_cb_link_failed_log (reg : Registry) (t : GstPlaySinkConvertBin) :
    ∃ inner, (pad_blocked_cb_link_failed reg t).log
        = t.log ++ (inner ++ [.set_blocked_async .sink_proxypad false, .unlock])
      ∧ ∀ a ∈ inner, is_inner_action a = true := by
  have h1 : adds_inner_actions t (emit .element_error t) := ⟨[.element_error], rfl, by
    simp [is_inner_action]⟩
  exact ends_with_unblock_unlock
    ((h1.followed (add_identity_adds_inner reg _)).followed (set_targets_adds_inner _))

theorem pad_blocked_cb_retarget_log (reg : Registry) (t : GstPlaySinkConvertBin) :
    ∃ inner, (pad_blocked_cb_retarget reg t).log
        = t.log ++ (inner ++ [.set_blocked_async .sink_proxypad false, .unlock])
      ∧ ∀ a ∈ inner, is_inner_action a = true := by
  have h1 : adds_inner_actions t
      (if t.conversion_elements = [] then gst_play_sink_convert_bin_add_identity reg t
        else t) := by
    split
    · exact add_identity_adds_inner reg t
    · exact adds_inner_actions.same t
  exact ends_with_unblock_unlock (h1.followed (set_targets_adds_inner _))

theorem log_shape_of_tail {s b t : GstPlaySinkConvertBin} {final : List Action}
    (hb : b.log = s.log ++ [.lock]) (hbt : adds_inner_actions b t)
    (ht : ∃ inner, final
        = t.log ++ (inner ++ [.set_blocked_async .sink_proxypad false, .unlock])
      ∧ ∀ a ∈ inner, is_inner_action a = true) :
    ∃ inner, final
        = s.log ++ (.lock :: (inner ++ [.set_blocked_async .sink_proxypad false, .unlock]))
      ∧ ∀ a ∈ inner, is_inner_action a = true := by
  obtain ⟨x, hx, hxa⟩ := hbt
  obtain ⟨y, hy, hya⟩ := ht
  refine ⟨x ++ y, ?_, ?_⟩
  · rw [hy, hx, hb]; simp
  · intro a ha
    rcases List.mem_append.mp ha with h | h
    · exact hxa a h
    · exact hya a h

theorem unset_targets_adds_inner (b : GstPlaySinkConvertBin) :
    adds_inner_actions b (set_src_target none (set_sink_target none b)) :=
  ⟨[.set_target .sinkpad none, .set_target .srcpad none],
    by simp [set_src_target, set_sink_target, emit], by simp [is_inner_action]⟩

/-- The log of every block confirmation: the lock, inner calls, the unblock request, the
unlock. -/
theorem pad_blocked_cb_log_shape (reg : Registry) (builder : Builder) (peer : PeerPad)
    (s : GstPlaySinkConvertBin) :
    ∃ inner, (pad_blocked_cb reg builder peer true s).log
        = s.log ++ (.lock :: (inner ++ [.set_blocked_async .sink_proxypad false, .unlock]))
      ∧ ∀ a ∈ inner, is_inner_action a = true := by
  by_cases h : is_raw_caps (peer_current_caps peer) = s.raw
  · rw [pad_blocked_cb_same_class reg builder peer s h]
    exact ⟨[], by simp, by simp⟩
  · cases hc : is_raw_caps (peer_current_caps peer)
    · have hs : s.raw = true := by
        cases hr : s.raw
        · exact absurd (hc.trans hr.symm) h
        · rfl
      rw [pad_blocked_cb_to_encoded reg builder peer s hc hs]
      exact log_shape_of_tail (b := { emit .lock s with
          sink_proxypad_blocked := true, raw := false }) rfl
        ((unset_targets_adds_inner _).followed (clear_conversion_elements_adds_inner _))
        (pad_blocked_cb_retarget_log reg _)
    · have hs : s.raw = false := by
        cases hr : s.raw
        · rfl
        · exact absurd (hc.trans hr.symm) h
      rw [pad_blocked_cb_to_raw reg builder peer s hc hs]
      have hrun := Builder.run_adds_inner reg builder (builder_input s)
      have hin : adds_inner_actions ({ emit .lock s with
          sink_proxypad_blocked := true, raw := true } : GstPlaySinkConvertBin)
          (builder_input s) := unset_targets_adds_inner _
      generalize builder.run reg (builder_input s) = r at *
      obtain ⟨ok, t⟩ := r
      cases ok
      · exact log_shape_of_tail (b := { emit .lock s with
            sink_proxypad_blocked := true, raw := true }) rfl (hin.followed hrun)
          (pad_blocked_cb_link_failed_log reg t)
      · refine log_shape_of_tail (b := { emit .lock s with
            sink_proxypad_blocked := true, raw := true }) rfl
          ((hin.followed hrun).followed ?_) (pad_blocked_cb_retarget_log reg _)
        split
        · exact g_list_foreach_adds_inner _ on_element_added_adds_inner _ t
        · exact adds_inner_actions.same t

theorem count_inner_eq_zero {inner : List Action} {a : Action}
    (hall : ∀ x ∈ inner, is_inner_action x = true) (ha : is_inner_action a = false) :
    inner.count a = 0 := by
  rw [List.count_eq_zero]
  intro hmem
  rw [hall a hmem] at ha
  exact Bool.noConfusion ha

theorem countP_block_request_inner_eq_zero {inner : List Action}
    (hall : ∀ x ∈ inner, is_inner_action x = true) :
    inner.countP is_block_request = 0 := by
  rw [List.countP_eq_zero]
  intro a ha
  have := hall a ha
  cases a <;> simp_all [is_inner_action, is_block_request]

/-- C17: for every container state, peer format and builder, a block-confirmation
callback (`pad_blocked_cb` with blocked = TRUE) requests the release of the block on the
inbound internal proxy pad exactly once and makes no other block or unblock request, on
each of its paths; it takes the container mutex once, as its first call, and releases it
exactly once, as its last call. -/
theorem pad_blocked_cb_unblocks_and_unlocks_once (reg : Registry) (builder : Builder)
    (peer : PeerPad) (s : GstPlaySinkConvertBin) :
    (new_log s (pad_blocked_cb reg builder peer true s)).count
        (.set_blocked_async .sink_proxypad false) = 1
      ∧ (new_log s (pad_blocked_cb reg builder peer true s)).countP is_block_request = 1
      ∧ (new_log s (pad_blocked_cb reg builder peer true s)).count .unlock = 1
      ∧ (new_log s (pad_blocked_cb reg builder peer true s)).count .lock = 1
      ∧ (new_log s (pad_blocked_cb reg builder peer true s)).head? = some .lock
      ∧ (new_log s (pad_blocked_cb reg builder peer true s)).getLast? = some .unlock
      ∧ (pad_blocked_cb reg builder peer true s).log
          = s.log ++ new_log s (pad_blocked_cb reg builder peer true s) := by
  obtain ⟨inner, hlog, hall⟩ := pad_blocked_cb_log_shape reg builder peer s
  have hnew : new_log s (pad_blocked_cb reg builder peer true s)
      = .lock :: (inner ++ [.set_blocked_async .sink_proxypad false, .unlock]) := by
    simp [new_log, hlog]
  rw [hnew, hlog]
  have c1 : inner.count (.set_blocked_async .sink_proxypad false) = 0 :=
    count_inner_eq_zero hall rfl
  have c2 : inner.count .unlock = 0 := count_inner_eq_zero hall rfl
  have c3 : inner.count .lock = 0 := count_inner_eq_zero hall rfl
  have c4 := countP_block_request_inner_eq_zero hall
  refine ⟨?_, ?_, ?_, ?_, rfl, ?_, rfl⟩
  · simp [List.count_cons, List.count_append, c1]
  · simp [List.countP_cons, List.countP_append, c4, is_block_request]
  · simp [List.count_cons, List.count_append, c2]
  · simp [List.count_cons, List.count_append, c3]
  · have e : Action.lock :: (inner ++ [.set_blocked_async .sink_proxypad false, .unlock])
        = (Action.lock :: inner ++ [.set_blocked_async .sink_proxypad false]) ++ [.unlock] := by
      simp
    rw [e, List.getLast?_append_of_ne_nil _ (by simp)]
    rfl

/-! ## Pass-through nodes made by block confirmations -/

/-- C16, the failing input evaluated: `running_raw` is reached from initialisation by the
READY to PAUSED transition and a block confirmation with raw audio and a builder that
appends nothing, and holds the pass-through node `identity#0`. Upstream then announces
encoded audio and the block is confirmed: the callback makes a second pass-through node,
`identity#1`, adds it to the bin and stores it in place of the first, which is neither
reused nor removed, so the bin has two pass-through nodes among its children. -/
theorem pad_blocked_cb_makes_second_identity :
    running_raw.identity = some ⟨0, "identity", "identity"⟩
      ∧ running_raw.children = [⟨0, "identity", "identity"⟩]
      ∧ raw_then_encoded.identity = some ⟨1, "identity", "identity"⟩
      ∧ raw_then_encoded.children
          = [⟨0, "identity", "identity"⟩, ⟨1, "identity", "identity"⟩]
      ∧ Action.bin_add ⟨1, "identity", "identity"⟩ ∈ new_log running_raw raw_then_encoded
      ∧ Action.bin_remove ⟨0, "identity", "identity"⟩ ∉ raw_then_encoded.log := by
  decide

/-! ## End to end -/

end PlaySinkConvertBin
